import Mathlib

/-
A shallow embedding of the zkgroup orchestration layer
(`rust/zkgroup/src/api/server_params.rs`) of this repository.

The file `server_params.rs` is translated faithfully: every structure and
function below that carries a source name follows the corresponding Rust
item line by line.  The cryptographic leaves it calls (the `Sho` stream,
`crypto::credentials`, `crypto::proofs`, `crypto::uid_struct`,
`crypto::profile_key_struct`, group encryption) are not part of the given
sources; they are modelled from the specification, as symbolic terms of a
free algebra `Val`, with each zero-knowledge proof recorded as the public
statement it attests, so that `verify` succeeds exactly when the statement
matches the verifier-side public inputs (spec 4.3: completeness of the
`new`/`verify` pairs, single opaque failure kind).
-/

namespace ZkGroup

/-- Modelled from the spec (4.1, domain separation): each distinct
domain-separation label of the source is a distinct constant.  This one
stands for `Signal_ZKGroup_20200424_Random_ServerSecretParams_Generate`. -/
def lblGenerate : Nat := 0

/-- Label `Signal_ZKGroup_20200424_Random_ServerSecretParams_Sign`. -/
def lblSign : Nat := 1

/-- Label `Signal_ZKGroup_20200424_Random_ServerSecretParams_IssueAuthCredential`. -/
def lblIssueAuth : Nat := 2

/-- Label `Signal_ZKGroup_20200424_Random_ServerSecretParams_IssueProfileKeyCredential`. -/
def lblIssueProfileKey : Nat := 3

/-- Label `Signal_ZKGroup_20220508_Random_ServerSecretParams_IssueProfileKeyCredentialV3`. -/
def lblIssueProfileKeyV3 : Nat := 4

/-- Label `Signal_ZKGroup_20211111_Random_ServerSecretParams_IssuePniCredential`. -/
def lblIssuePni : Nat := 5

/-- Label `Signal_ZKGroup_20210919_Random_ServerSecretParams_IssueReceiptCredential`. -/
def lblIssueReceipt : Nat := 6

/-- Label `Signal_ZKGroup_20200424_Random_ServerPublicParams_CreateAuthCredentialPresentation`. -/
def lblCreateAuthPresV1 : Nat := 7

/-- Label `Signal_ZKGroup_20220120_Random_ServerPublicParams_CreateAuthCredentialPresentationV2`. -/
def lblCreateAuthPresV2 : Nat := 8

/-- Label
`Signal_ZKGroup_20200424_Random_ServerPublicParams_CreateProfileKeyCredentialRequestContext`. -/
def lblCreateProfileKeyReqCtx : Nat := 9

/-- Label
`Signal_ZKGroup_20220528_Random_ServerPublicParams_CreateProfileKeyCredentialV3RequestContext`. -/
def lblCreateProfileKeyV3ReqCtx : Nat := 10

/-- Label
`Signal_ZKGroup_20200424_Random_ServerPublicParams_CreateProfileKeyCredentialPresentation`. -/
def lblCreateProfileKeyPresV1 : Nat := 11

/-- Label
`Signal_ZKGroup_20220120_Random_ServerPublicParams_CreateProfileKeyCredentialPresentationV2`. -/
def lblCreateProfileKeyPresV2 : Nat := 12

/-- Label
`Signal_ZKGroup_20220508_Random_ServerPublicParams_CreateProfileKeyCredentialV3Presentation`. -/
def lblCreateProfileKeyPresV3 : Nat := 13

/-- Label `Signal_ZKGroup_20211111_Random_ServerPublicParams_CreatePniCredentialPresentation`. -/
def lblCreatePniPresV1 : Nat := 14

/-- Label `Signal_ZKGroup_20220120_Random_ServerPublicParams_CreatePniCredentialPresentationV2`. -/
def lblCreatePniPresV2 : Nat := 15

/-- Label
`Signal_ZKGroup_20210919_Random_ServerPublicParams_CreateReceiptCredentialRequestContext`. -/
def lblCreateReceiptReqCtx : Nat := 16

/-- Label
`Signal_ZKGroup_20210919_Random_ServerPublicParams_CreateReceiptCredentialPresentation`. -/
def lblCreateReceiptPres : Nat := 17

/-- Credential-kind discriminants: the per-kind algebraic credential types of
`crypto::credentials` (AuthCredential, ProfileKeyCredential,
ProfileKeyCredentialV3, PniCredential, ReceiptCredential) are kept apart by
this tag (spec 3, invariant: every credential-kind key-pair is independent and
cross-kind mixing must be rejected). -/
def kindAuth : Nat := 0

/-- Kind tag for `crypto::credentials::ProfileKeyCredential`. -/
def kindProfileKey : Nat := 1

/-- Kind tag for `crypto::credentials::ProfileKeyCredentialV3`. -/
def kindProfileKeyV3 : Nat := 2

/-- Kind tag for `crypto::credentials::PniCredential`. -/
def kindPni : Nat := 3

/-- Kind tag for `crypto::credentials::ReceiptCredential`. -/
def kindReceipt : Nat := 4

/-- Modelled from the spec: the carrier of all algebraic values (scalars,
group elements, ciphertexts, credentials) produced by the cryptographic
leaves that are outside the given sources.  A free term algebra: distinct
constructions are distinct values, and the deterministic functions of the
algebra are term constructors.
  - `natV`: an attribute byte-string (uid bytes, profile-key bytes,
    receipt serial, times/levels) injected into the algebra;
  - `shoOut lbl seed i`: the i-th output of the `Sho` stream keyed by
    (label, seed) (spec 4.1: a deterministic function of label, seed and
    call position);
  - `pubOf s`: the public half derived from secret key material `s`;
  - `pairV`: tupling of attribute values;
  - `uidStructV b`: `crypto::uid_struct::UidStruct::new(b)`;
  - `profileKeyStructV pk uid`:
    `crypto::profile_key_struct::ProfileKeyStruct::new(pk, uid)`;
  - `commitV pk uid`: the deterministic profile-key commitment over
    (profile-key bytes, uid bytes) (spec 6, commitment collaborator);
  - `reqCtV nonce pub m`: the holder-side request ciphertext of `m` under
    one-time public key `pub` with encryption nonce `nonce`;
  - `blindCtV kind pub nonce cred`: a blinded credential, decryptable by the
    holder of `pub` into `cred` (spec 4.2);
  - `credV kind sk attrs`: the credential of the given kind over `attrs`
    issued under issuer secret `sk` (spec 4.2);
  - `uidEncV key m` and `pkEncV key pk uid`: the group-encryption
    collaborator's ciphertexts (spec 6);
  - `sigV pub msg nonce`: a notary signature. -/
inductive Val : Type where
  | natV (k : Nat)
  | shoOut (label seed i : Nat)
  | pubOf (s : Val)
  | pairV (a b : Val)
  | uidStructV (b : Nat)
  | profileKeyStructV (pk uid : Nat)
  | commitV (pk uid : Nat)
  | reqCtV (nonce pub m : Val)
  | blindCtV (kind : Nat) (pub nonce cred : Val)
  | credV (kind : Nat) (sk attrs : Val)
  | uidEncV (key m : Val)
  | pkEncV (key : Val) (pk uid : Nat)
  | sigV (pub msg nonce : Val)
deriving DecidableEq, Repr

/-- Modelled from the spec (4.1): the `Sho` synthetic hash object of
`common::sho`, a keyed extendable-output stream.  The state records the
domain-separation label, the caller seed, and the position in the output
stream; successive squeezes are `shoOut label seed 0`, `shoOut label seed 1`,
and so on, a pure function of (label, seed, call sequence). -/
structure Sho where
  label : Nat
  seed : Nat
  pos : Nat
deriving DecidableEq, Repr

/-- `Sho::new(label, randomness)`: initialize the stream at position 0. -/
def Sho.new (label : Nat) (seed : Nat) : Sho :=
  { label := label, seed := seed, pos := 0 }

/-- One squeeze of the stream: the next deterministic output plus the
advanced state. -/
def Sho.next (s : Sho) : Val × Sho :=
  (Val.shoOut s.label s.seed s.pos, { s with pos := s.pos + 1 })

/-- `ZkGroupVerificationFailure` of `common::errors`: the single opaque
error kind returned by every verifying operation (spec 7). -/
inductive ZkGroupVerificationFailure : Type where
  | verificationFailure
deriving DecidableEq, Repr

/-- The reserved/version leading byte of the api structures
(`ReservedBytes`); `Default::default()` is 0. -/
abbrev ReservedBytes := Nat

/-- `PRESENTATION_VERSION_1` of `common::constants`. -/
def PRESENTATION_VERSION_1 : Nat := 0

/-- `PRESENTATION_VERSION_2` of `common::constants`. -/
def PRESENTATION_VERSION_2 : Nat := 1

/-- `PROFILE_KEY_CREDENTIAL_VERSION_3` of `common::constants`. -/
def PROFILE_KEY_CREDENTIAL_VERSION_3 : Nat := 2

/-- Modelled from the spec (4.2): `crypto::credentials::KeyPair<K>` and
`crypto::signature::KeyPair` and the one-time request key pairs: secret key
material plus the derived public half. -/
structure KeyPair where
  secret : Val
deriving DecidableEq, Repr

/-- `KeyPair::get_public_key`. -/
def KeyPair.get_public_key (kp : KeyPair) : Val :=
  Val.pubOf kp.secret

/-- Modelled from the spec (4.2): `KeyPair::generate(sho)` derives the
secret key material purely from the Sho stream. -/
def KeyPair.generate (sho : Sho) : KeyPair × Sho :=
  let (s, sho1) := sho.next
  (⟨s⟩, sho1)

/-- `crypto::uid_struct::UidStruct::new(uid_bytes)`; modelled from the spec:
a deterministic injection of the uid bytes into the algebra. -/
def UidStruct.new (b : Nat) : Val :=
  Val.uidStructV b

/-- Modelled from the spec: `crypto::profile_key_struct::ProfileKeyStruct`,
whose `bytes` field preserves the input profile-key bytes and which is
derived deterministically from (profile-key bytes, uid bytes). -/
structure ProfileKeyStruct where
  bytes : Nat
  uid_bytes : Nat
deriving DecidableEq, Repr

/-- `ProfileKeyStruct::new(profile_key_bytes, uid_bytes)`. -/
def ProfileKeyStruct.new (pk uid : Nat) : ProfileKeyStruct :=
  { bytes := pk, uid_bytes := uid }

/-- The algebraic value encrypted and committed for a profile key. -/
def ProfileKeyStruct.toVal (s : ProfileKeyStruct) : Val :=
  Val.profileKeyStructV s.bytes s.uid_bytes

/-- Modelled from the spec (6): the commitment-with-nonce of
`crypto::profile_key_commitment::CommitmentWithSecretNonce::new`. -/
structure CommitmentWithSecretNonce where
  pk_bytes : Nat
  uid_bytes : Nat
deriving DecidableEq, Repr

/-- `CommitmentWithSecretNonce::new(profile_key_struct, uid_bytes)`. -/
def CommitmentWithSecretNonce.new (s : ProfileKeyStruct) (uid : Nat) :
    CommitmentWithSecretNonce :=
  { pk_bytes := s.bytes, uid_bytes := uid }

/-- `CommitmentWithSecretNonce::get_profile_key_commitment`. -/
def CommitmentWithSecretNonce.get_commitment (c : CommitmentWithSecretNonce) : Val :=
  Val.commitV c.pk_bytes c.uid_bytes

/-- `api::profiles::ProfileKey` (a 32-byte profile key). -/
structure ProfileKey where
  bytes : Nat
deriving DecidableEq, Repr

/-- Modelled from the spec (6): `ProfileKey::get_commitment(uid_bytes)`, the
publicly known commitment the issuer checks a request against. -/
def ProfileKey.get_commitment (pk : ProfileKey) (uid : Nat) : Val :=
  Val.commitV pk.bytes uid

/-- `api::profiles::ProfileKeyCommitment`, the api wrapper around the
commitment consumed by `issue_profile_key_credential`. -/
structure ProfileKeyCommitment where
  commitment : Val
deriving DecidableEq, Repr

/-- Modelled from the spec (4.2): the holder-side request
ciphertext-with-secret-nonce produced by
`crypto::profile_key_credential_request::KeyPair::encrypt` (and its receipt
counterpart). -/
structure CiphertextWithSecretNonce where
  nonce : Val
  holder_public : Val
  plaintext : Val
deriving DecidableEq, Repr

/-- `KeyPair::encrypt(plaintext, sho)`: a one-time encryption under the
holder's key pair, with its nonce drawn from the Sho stream. -/
def KeyPair.encrypt (kp : KeyPair) (m : Val) (sho : Sho) :
    CiphertextWithSecretNonce × Sho :=
  let (n, sho1) := sho.next
  ({ nonce := n, holder_public := kp.get_public_key, plaintext := m }, sho1)

/-- `CiphertextWithSecretNonce::get_ciphertext`: strip the secret nonce into
the transmissible ciphertext. -/
def CiphertextWithSecretNonce.get_ciphertext (c : CiphertextWithSecretNonce) : Val :=
  Val.reqCtV c.nonce c.holder_public c.plaintext

/-- Modelled from the spec (4.2): the attribute value a request ciphertext
encrypts, as the issuer's homomorphic blind issuance operates on it. -/
def ctPlaintext : Val → Val
  | Val.reqCtV _ _ m => m
  | v => v

/-- Modelled from the spec (4.2): the credential of a kind over attributes
under an issuer key pair; produced by issuance only. -/
def mkCred (kind : Nat) (kp : KeyPair) (attrs : Val) : Val :=
  Val.credV kind kp.secret attrs

/-- Modelled from the spec (4.2): a blinded credential with its retained
secret nonce, as produced by the `create_blinded_*_credential` operations. -/
structure BlindedCredentialWithSecretNonce where
  kind : Nat
  holder_public : Val
  nonce : Val
  credential : Val
deriving DecidableEq, Repr

/-- Blind issuance of a credential of `kind` over `attrs` against the
holder's one-time public key: the issuer never opens the ciphertext, the
result is decryptable only under the holder's key (spec 4.2). -/
def blindIssue (kind : Nat) (kp : KeyPair) (attrs : Val) (holderPub : Val)
    (sho : Sho) : BlindedCredentialWithSecretNonce × Sho :=
  let (n, sho1) := sho.next
  ({ kind := kind, holder_public := holderPub, nonce := n,
     credential := mkCred kind kp attrs }, sho1)

/-- The `get_blinded_*_credential` operations: strip the nonce into the
transmissible blinded credential. -/
def BlindedCredentialWithSecretNonce.get_blinded
    (b : BlindedCredentialWithSecretNonce) : Val :=
  Val.blindCtV b.kind b.holder_public b.nonce b.credential

/-- Modelled from the spec (4.2): `decrypt_blinded_*_credential`, the
holder-side unblinding under the one-time key pair of the request context. -/
def KeyPair.decrypt_blinded (kp : KeyPair) (b : Val) : Val :=
  match b with
  | Val.blindCtV _ p _ cred => if p = kp.get_public_key then cred else b
  | v => v

/-- Shorthand for the uniform result type of every verifying operation. -/
abbrev VerifyResult := Except ZkGroupVerificationFailure Unit

/-- The single opaque failure value (spec 7). -/
def vFail : VerifyResult :=
  Except.error ZkGroupVerificationFailure.verificationFailure

/-- `common::simple_types::RandomnessBytes` (32 bytes of caller entropy). -/
abbrev RandomnessBytes := Nat

/-- `common::simple_types::UidBytes`. -/
abbrev UidBytes := Nat

/-- `common::simple_types::ProfileKeyBytes`. -/
abbrev ProfileKeyBytes := Nat

/-- `common::simple_types::RedemptionTime`. -/
abbrev RedemptionTime := Nat

/-- `common::simple_types::ReceiptSerialBytes`. -/
abbrev ReceiptSerialBytes := Nat

/-- `common::simple_types::ReceiptExpirationTime`. -/
abbrev ReceiptExpirationTime := Nat

/-- `common::simple_types::ReceiptLevel`. -/
abbrev ReceiptLevel := Nat

/-- `common::simple_types::NotarySignatureBytes`. -/
abbrev NotarySignatureBytes := Val

/-- Modelled from the spec (4.3): `crypto::proofs::AuthCredentialIssuanceProof`.
The non-interactive proof records the public statement it attests (issuer
public key, credential, uid, redemption time) plus a Fiat-Shamir nonce from
the Sho stream; `verify` recomputes the check against the supplied public
inputs and fails opaquely on any mismatch. -/
structure AuthCredentialIssuanceProof where
  issuer_public : Val
  credential : Val
  uid : Val
  redemption_time : Nat
  fsNonce : Val
deriving DecidableEq, Repr

/-- `AuthCredentialIssuanceProof::new(key_pair, credential, uid,
redemption_time, sho)`. -/
def AuthCredentialIssuanceProof.new (kp : KeyPair) (credential uid : Val)
    (redemption_time : Nat) (sho : Sho) : AuthCredentialIssuanceProof × Sho :=
  let (n, sho1) := sho.next
  ({ issuer_public := kp.get_public_key, credential := credential, uid := uid,
     redemption_time := redemption_time, fsNonce := n }, sho1)

/-- `AuthCredentialIssuanceProof::verify(public_key, credential, uid,
redemption_time)`: succeeds exactly when the attested statement matches the
supplied public inputs (spec 4.3, issuance-proof relation). -/
def AuthCredentialIssuanceProof.verify (p : AuthCredentialIssuanceProof)
    (public_key credential uid : Val) (redemption_time : Nat) : VerifyResult :=
  if p.issuer_public = public_key ∧ p.credential = credential ∧ p.uid = uid ∧
      p.redemption_time = redemption_time then
    Except.ok ()
  else vFail

/-- Modelled from the spec (4.3): the request-proof relation of
`crypto::proofs::ProfileKeyCredentialRequestProof`: the ciphertext under the
holder's one-time public key encrypts the same profile key committed to in a
publicly known commitment. -/
structure ProfileKeyCredentialRequestProof where
  holder_public : Val
  ciphertext : Val
  commitment : Val
  fsNonce : Val
deriving DecidableEq, Repr

/-- `ProfileKeyCredentialRequestProof::new(key_pair,
ciphertext_with_secret_nonce, commitment_with_secret_nonce, sho)`. -/
def ProfileKeyCredentialRequestProof.new (kp : KeyPair)
    (ct : CiphertextWithSecretNonce) (cm : CommitmentWithSecretNonce)
    (sho : Sho) : ProfileKeyCredentialRequestProof × Sho :=
  let (n, sho1) := sho.next
  ({ holder_public := kp.get_public_key, ciphertext := ct.get_ciphertext,
     commitment := cm.get_commitment, fsNonce := n }, sho1)

/-- Modelled from the spec (4.3): whether a request ciphertext's plaintext
is the profile key committed to by a commitment. -/
def ctMatchesCommit : Val → Val → Bool
  | Val.profileKeyStructV pk uid, Val.commitV pk1 uid1 => pk = pk1 && uid = uid1
  | _, _ => false

/-- `ProfileKeyCredentialRequestProof::verify(public_key, ciphertext,
commitment)`: the statement must match the supplied public inputs and the
ciphertext must encrypt the committed profile key (spec 4.3, request-proof
relation). -/
def ProfileKeyCredentialRequestProof.verify (p : ProfileKeyCredentialRequestProof)
    (public_key ciphertext commitment : Val) : VerifyResult :=
  if p.holder_public = public_key ∧ p.ciphertext = ciphertext ∧
      p.commitment = commitment ∧
      ctMatchesCommit (ctPlaintext p.ciphertext) p.commitment = true then
    Except.ok ()
  else vFail

/-- Modelled from the spec (4.3): issuance proof for blinded profile-key
credentials (`crypto::proofs::ProfileKeyCredentialIssuanceProof` and its V3
counterpart, kept apart by the recorded credential kind): the blinded
credential was correctly derived from the issuer's secret key and the
holder's ciphertext/public key. -/
structure PKIssuanceProof where
  kind : Nat
  issuer_public : Val
  holder_public : Val
  ciphertext : Val
  blinded : Val
  uid : Val
  fsNonce : Val
deriving DecidableEq, Repr

/-- `ProfileKeyCredentialIssuanceProof::new(key_pair, request_public_key,
request_ciphertext, blinded_credential_with_secret_nonce, uid, sho)`
(respectively its V3 counterpart, which records `kindProfileKeyV3`). -/
def PKIssuanceProof.new (kind : Nat) (kp : KeyPair) (holderPub ciphertext : Val)
    (b : BlindedCredentialWithSecretNonce) (uid : Val) (sho : Sho) :
    PKIssuanceProof × Sho :=
  let (n, sho1) := sho.next
  ({ kind := kind, issuer_public := kp.get_public_key,
     holder_public := holderPub, ciphertext := ciphertext,
     blinded := b.get_blinded, uid := uid, fsNonce := n }, sho1)

/-- `ProfileKeyCredentialIssuanceProof::verify(public_key,
request_public_key, uid_bytes, ciphertext, blinded_credential)` (and the V3
counterpart): the attested statement must match the supplied public inputs,
for this proof's credential kind. -/
def PKIssuanceProof.verify (p : PKIssuanceProof) (kind : Nat)
    (public_key holder_public : Val) (uid_bytes : Nat)
    (ciphertext blinded : Val) : VerifyResult :=
  if p.kind = kind ∧ p.issuer_public = public_key ∧
      p.holder_public = holder_public ∧ p.uid = UidStruct.new uid_bytes ∧
      p.ciphertext = ciphertext ∧ p.blinded = blinded then
    Except.ok ()
  else vFail

/-- Modelled from the spec (4.3): issuance proof for blinded PNI credentials
(`crypto::proofs::PniCredentialIssuanceProof`), binding both the ACI and the
PNI. -/
structure PniCredentialIssuanceProof where
  issuer_public : Val
  holder_public : Val
  ciphertext : Val
  blinded : Val
  uid : Val
  pni : Val
  fsNonce : Val
deriving DecidableEq, Repr

/-- `PniCredentialIssuanceProof::new(key_pair, request_public_key,
request_ciphertext, blinded_credential_with_secret_nonce, uid, pni, sho)`. -/
def PniCredentialIssuanceProof.new (kp : KeyPair) (holderPub ciphertext : Val)
    (b : BlindedCredentialWithSecretNonce) (uid pni : Val) (sho : Sho) :
    PniCredentialIssuanceProof × Sho :=
  let (n, sho1) := sho.next
  ({ issuer_public := kp.get_public_key, holder_public := holderPub,
     ciphertext := ciphertext, blinded := b.get_blinded, uid := uid,
     pni := pni, fsNonce := n }, sho1)

/-- `PniCredentialIssuanceProof::verify(public_key, request_public_key,
aci_bytes, pni_bytes, ciphertext, blinded_credential)`. -/
def PniCredentialIssuanceProof.verify (p : PniCredentialIssuanceProof)
    (public_key holder_public : Val) (aci_bytes pni_bytes : Nat)
    (ciphertext blinded : Val) : VerifyResult :=
  if p.issuer_public = public_key ∧ p.holder_public = holder_public ∧
      p.uid = UidStruct.new aci_bytes ∧ p.pni = UidStruct.new pni_bytes ∧
      p.ciphertext = ciphertext ∧ p.blinded = blinded then
    Except.ok ()
  else vFail

/-- `crypto::receipt_struct::ReceiptStruct`. -/
structure ReceiptStruct where
  receipt_serial_bytes : Nat
  receipt_expiration_time : Nat
  receipt_level : Nat
deriving DecidableEq, Repr

/-- `ReceiptStruct::new(receipt_serial_bytes, receipt_expiration_time,
receipt_level)`. -/
def ReceiptStruct.new (s t l : Nat) : ReceiptStruct :=
  { receipt_serial_bytes := s, receipt_expiration_time := t, receipt_level := l }

/-- Modelled from the spec (4.3): issuance proof for blinded receipt
credentials (`crypto::proofs::ReceiptCredentialIssuanceProof`), binding the
public expiration time and level. -/
structure ReceiptCredentialIssuanceProof where
  issuer_public : Val
  holder_public : Val
  ciphertext : Val
  blinded : Val
  receipt_expiration_time : Nat
  receipt_level : Nat
  fsNonce : Val
deriving DecidableEq, Repr

/-- `ReceiptCredentialIssuanceProof::new(key_pair, request_public_key,
request_ciphertext, blinded_credential_with_secret_nonce,
receipt_expiration_time, receipt_level, sho)`. -/
def ReceiptCredentialIssuanceProof.new (kp : KeyPair)
    (holderPub ciphertext : Val) (b : BlindedCredentialWithSecretNonce)
    (t l : Nat) (sho : Sho) : ReceiptCredentialIssuanceProof × Sho :=
  let (n, sho1) := sho.next
  ({ issuer_public := kp.get_public_key, holder_public := holderPub,
     ciphertext := ciphertext, blinded := b.get_blinded,
     receipt_expiration_time := t, receipt_level := l, fsNonce := n }, sho1)

/-- `ReceiptCredentialIssuanceProof::verify(public_key, request_public_key,
ciphertext, blinded_credential, receipt_struct)`: the statement must match
and the request ciphertext must encrypt the receipt serial of the supplied
receipt struct. -/
def ReceiptCredentialIssuanceProof.verify (p : ReceiptCredentialIssuanceProof)
    (public_key holder_public ciphertext blinded : Val) (rs : ReceiptStruct) :
    VerifyResult :=
  if p.issuer_public = public_key ∧ p.holder_public = holder_public ∧
      p.ciphertext = ciphertext ∧ p.blinded = blinded ∧
      p.receipt_expiration_time = rs.receipt_expiration_time ∧
      p.receipt_level = rs.receipt_level ∧
      ctPlaintext p.ciphertext = Val.natV rs.receipt_serial_bytes then
    Except.ok ()
  else vFail

/-- Modelled from the spec (4.3): auth presentation proofs
(`crypto::proofs::AuthCredentialPresentationProofV1` and `V2`, kept apart by
the recorded version): the presented uid ciphertext, decryptable under the
group's key, encrypts the uid the (unrevealed but valid) auth credential was
issued over, with the redemption time bound as a public value. -/
structure AuthPresProof where
  ver : Nat
  credentials_public : Val
  uid_enc_public : Val
  credential : Val
  uid : Val
  ciphertext : Val
  redemption_time : Nat
  fsNonce : Val
deriving DecidableEq, Repr

/-- `AuthCredentialPresentationProofV1::new(credentials_public_key,
uid_enc_key_pair, credential, uid, uuid_ciphertext, redemption_time, sho)`
(V2 records version `PRESENTATION_VERSION_2` instead). -/
def AuthPresProof.new (ver : Nat) (credentials_public : Val)
    (uid_enc_key_pair : KeyPair) (credential uid ciphertext : Val)
    (redemption_time : Nat) (sho : Sho) : AuthPresProof × Sho :=
  let (n, sho1) := sho.next
  ({ ver := ver, credentials_public := credentials_public,
     uid_enc_public := uid_enc_key_pair.get_public_key,
     credential := credential, uid := uid, ciphertext := ciphertext,
     redemption_time := redemption_time, fsNonce := n }, sho1)

/-- `AuthCredentialPresentationProofV1::verify(credentials_key_pair,
uid_enc_public_key, ciphertext, redemption_time)` (and V2): the statement
must match the verifier-side public inputs, the presented ciphertext must
encrypt the credential's uid under the group key, and the credential must be
valid under the verifier's auth key pair. -/
def AuthPresProof.verify (p : AuthPresProof) (ver : Nat) (kp : KeyPair)
    (uid_enc_public_key ciphertext : Val) (redemption_time : Nat) : VerifyResult :=
  if p.ver = ver ∧ p.credentials_public = kp.get_public_key ∧
      p.uid_enc_public = uid_enc_public_key ∧ p.ciphertext = ciphertext ∧
      p.redemption_time = redemption_time ∧
      p.ciphertext = Val.uidEncV p.uid_enc_public p.uid ∧
      p.credential = mkCred kindAuth kp
        (Val.pairV p.uid (Val.natV p.redemption_time)) then
    Except.ok ()
  else vFail

/-- Modelled from the spec (4.3): profile-key presentation proofs
(`crypto::proofs::ProfileKeyCredentialPresentationProofV1`, `...V2`, and
`ProfileKeyCredentialV3PresentationProof`, kept apart by the recorded
version and credential kind): the presented uid and profile-key ciphertexts,
decryptable under the group's keys, encrypt the attributes the (unrevealed
but valid) credential was issued over. -/
structure PKPresProof where
  ver : Nat
  kind : Nat
  uid_enc_public : Val
  profile_key_enc_public : Val
  credentials_public : Val
  credential : Val
  uid_ciphertext : Val
  profile_key_ciphertext : Val
  uid_bytes : Nat
  profile_key_bytes : Nat
  fsNonce : Val
deriving DecidableEq, Repr

/-- `ProfileKeyCredentialPresentationProofV1::new(uid_enc_key_pair,
profile_key_enc_key_pair, credentials_public_key, credential,
uuid_ciphertext, profile_key_ciphertext, uid_bytes, profile_key_bytes, sho)`
(V2 and the V3 proof record their own version and kind). -/
def PKPresProof.new (ver kind : Nat) (uid_enc_key_pair : KeyPair)
    (profile_key_enc_key_pair : KeyPair) (credentials_public : Val)
    (credential uid_ct pk_ct : Val) (uid_bytes profile_key_bytes : Nat)
    (sho : Sho) : PKPresProof × Sho :=
  let (n, sho1) := sho.next
  ({ ver := ver, kind := kind,
     uid_enc_public := uid_enc_key_pair.get_public_key,
     profile_key_enc_public := profile_key_enc_key_pair.get_public_key,
     credentials_public := credentials_public, credential := credential,
     uid_ciphertext := uid_ct, profile_key_ciphertext := pk_ct,
     uid_bytes := uid_bytes, profile_key_bytes := profile_key_bytes,
     fsNonce := n }, sho1)

/-- `ProfileKeyCredentialPresentationProofV1::verify(credentials_key_pair,
uid_enc_ciphertext, uid_enc_public_key, profile_key_enc_ciphertext,
profile_key_enc_public_key)` (and the V2/V3 counterparts): the statement
must match the verifier-side public inputs, the ciphertexts must encrypt the
credential's attributes under the group keys, and the credential of this
proof's kind must be valid under the verifier's key pair. -/
def PKPresProof.verify (p : PKPresProof) (ver kind : Nat) (kp : KeyPair)
    (uid_ct uid_enc_public_key pk_ct profile_key_enc_public_key : Val) :
    VerifyResult :=
  if p.ver = ver ∧ p.kind = kind ∧ p.credentials_public = kp.get_public_key ∧
      p.uid_ciphertext = uid_ct ∧ p.uid_enc_public = uid_enc_public_key ∧
      p.profile_key_ciphertext = pk_ct ∧
      p.profile_key_enc_public = profile_key_enc_public_key ∧
      p.uid_ciphertext = Val.uidEncV p.uid_enc_public (UidStruct.new p.uid_bytes) ∧
      p.profile_key_ciphertext =
        Val.pkEncV p.profile_key_enc_public p.profile_key_bytes p.uid_bytes ∧
      p.credential = mkCred kind kp
        (Val.pairV (UidStruct.new p.uid_bytes)
          (Val.profileKeyStructV p.profile_key_bytes p.uid_bytes)) then
    Except.ok ()
  else vFail

/-- Modelled from the spec (4.3): PNI presentation proofs
(`crypto::proofs::PniCredentialPresentationProofV1` and `V2`): as the
profile-key relation, additionally binding the separately encrypted PNI. -/
structure PniPresProof where
  ver : Nat
  uid_enc_public : Val
  profile_key_enc_public : Val
  credentials_public : Val
  credential : Val
  aci_ciphertext : Val
  pni_ciphertext : Val
  profile_key_ciphertext : Val
  aci_bytes : Nat
  pni_bytes : Nat
  profile_key_bytes : Nat
  fsNonce : Val
deriving DecidableEq, Repr

/-- `PniCredentialPresentationProofV1::new(uid_enc_key_pair,
profile_key_enc_key_pair, credentials_public_key, credential,
aci_ciphertext, pni_ciphertext, profile_key_ciphertext, aci_bytes,
pni_bytes, profile_key_bytes, sho)` (V2 records its own version). -/
def PniPresProof.new (ver : Nat) (uid_enc_key_pair : KeyPair)
    (profile_key_enc_key_pair : KeyPair) (credentials_public : Val)
    (credential aci_ct pni_ct pk_ct : Val)
    (aci_bytes pni_bytes profile_key_bytes : Nat) (sho : Sho) :
    PniPresProof × Sho :=
  let (n, sho1) := sho.next
  ({ ver := ver, uid_enc_public := uid_enc_key_pair.get_public_key,
     profile_key_enc_public := profile_key_enc_key_pair.get_public_key,
     credentials_public := credentials_public, credential := credential,
     aci_ciphertext := aci_ct, pni_ciphertext := pni_ct,
     profile_key_ciphertext := pk_ct, aci_bytes := aci_bytes,
     pni_bytes := pni_bytes, profile_key_bytes := profile_key_bytes,
     fsNonce := n }, sho1)

/-- `PniCredentialPresentationProofV1::verify(credentials_key_pair,
aci_enc_ciphertext, uid_enc_public_key, profile_key_enc_ciphertext,
profile_key_enc_public_key, pni_enc_ciphertext)` (and V2). -/
def PniPresProof.verify (p : PniPresProof) (ver : Nat) (kp : KeyPair)
    (aci_ct uid_enc_public_key pk_ct profile_key_enc_public_key pni_ct : Val) :
    VerifyResult :=
  if p.ver = ver ∧ p.credentials_public = kp.get_public_key ∧
      p.aci_ciphertext = aci_ct ∧ p.uid_enc_public = uid_enc_public_key ∧
      p.profile_key_ciphertext = pk_ct ∧
      p.profile_key_enc_public = profile_key_enc_public_key ∧
      p.pni_ciphertext = pni_ct ∧
      p.aci_ciphertext = Val.uidEncV p.uid_enc_public (UidStruct.new p.aci_bytes) ∧
      p.pni_ciphertext = Val.uidEncV p.uid_enc_public (UidStruct.new p.pni_bytes) ∧
      p.profile_key_ciphertext =
        Val.pkEncV p.profile_key_enc_public p.profile_key_bytes p.aci_bytes ∧
      p.credential = mkCred kindPni kp
        (Val.pairV (UidStruct.new p.aci_bytes)
          (Val.pairV (UidStruct.new p.pni_bytes)
            (Val.profileKeyStructV p.profile_key_bytes p.aci_bytes))) then
    Except.ok ()
  else vFail

/-- Modelled from the spec (4.3):
`crypto::proofs::ReceiptCredentialPresentationProof`: the (unrevealed)
receipt credential is valid under the issuer's key, with the receipt struct
bound as public values. -/
structure ReceiptCredentialPresentationProof where
  credentials_public : Val
  credential : Val
  fsNonce : Val
deriving DecidableEq, Repr

/-- `ReceiptCredentialPresentationProof::new(receipt_public_key, credential,
sho)`. -/
def ReceiptCredentialPresentationProof.new (credentials_public credential : Val)
    (sho : Sho) : ReceiptCredentialPresentationProof × Sho :=
  let (n, sho1) := sho.next
  ({ credentials_public := credentials_public, credential := credential,
     fsNonce := n }, sho1)

/-- `ReceiptCredentialPresentationProof::verify(credentials_key_pair,
receipt_struct)`. -/
def ReceiptCredentialPresentationProof.verify
    (p : ReceiptCredentialPresentationProof) (kp : KeyPair)
    (rs : ReceiptStruct) : VerifyResult :=
  if p.credentials_public = kp.get_public_key ∧
      p.credential = mkCred kindReceipt kp
        (Val.pairV (Val.natV rs.receipt_serial_bytes)
          (Val.pairV (Val.natV rs.receipt_expiration_time)
            (Val.natV rs.receipt_level))) then
    Except.ok ()
  else vFail

/-- Modelled from the spec (6, signature sub-API):
`crypto::signature::KeyPair::sign(message, sho)`. -/
def KeyPair.sign (kp : KeyPair) (message : Nat) (sho : Sho) : Val :=
  Val.sigV kp.get_public_key (Val.natV message) (sho.next).1

/-- `api::auth::AuthCredentialResponse`. -/
structure AuthCredentialResponse where
  reserved : ReservedBytes
  credential : Val
  proof : AuthCredentialIssuanceProof
deriving DecidableEq, Repr

/-- `api::auth::AuthCredential`. -/
structure AuthCredential where
  reserved : ReservedBytes
  credential : Val
  uid : Val
  redemption_time : RedemptionTime
deriving DecidableEq, Repr

/-- `api::auth::AuthCredentialPresentationV1`. -/
structure AuthCredentialPresentationV1 where
  reserved : ReservedBytes
  proof : AuthPresProof
  ciphertext : Val
  redemption_time : RedemptionTime
deriving DecidableEq, Repr

/-- `api::auth::AuthCredentialPresentationV2`. -/
structure AuthCredentialPresentationV2 where
  version : ReservedBytes
  proof : AuthPresProof
  ciphertext : Val
  redemption_time : RedemptionTime
deriving DecidableEq, Repr

/-- `api::auth::AnyAuthCredentialPresentation`: the closed enum of
presentation version variants (spec 9: a tagged union with exhaustive
matching, no open extension). -/
inductive AnyAuthCredentialPresentation : Type where
  | V1 (p : AuthCredentialPresentationV1)
  | V2 (p : AuthCredentialPresentationV2)
deriving DecidableEq, Repr

/-- `api::profiles::ProfileKeyCredentialRequest`. -/
structure ProfileKeyCredentialRequest where
  reserved : ReservedBytes
  public_key : Val
  ciphertext : Val
  proof : ProfileKeyCredentialRequestProof
deriving DecidableEq, Repr

/-- `api::profiles::ProfileKeyCredentialRequestContext`. -/
structure ProfileKeyCredentialRequestContext where
  reserved : ReservedBytes
  uid_bytes : UidBytes
  profile_key_bytes : ProfileKeyBytes
  key_pair : KeyPair
  ciphertext_with_secret_nonce : CiphertextWithSecretNonce
  proof : ProfileKeyCredentialRequestProof
deriving DecidableEq, Repr

/-- Modelled from the spec (4.4, step 1-2):
`ProfileKeyCredentialRequestContext::get_request`, the transmissible part of
the context (one-time public key, ciphertext stripped of its nonce, request
proof). -/
def ProfileKeyCredentialRequestContext.get_request
    (c : ProfileKeyCredentialRequestContext) : ProfileKeyCredentialRequest :=
  { reserved := 0, public_key := c.key_pair.get_public_key,
    ciphertext := c.ciphertext_with_secret_nonce.get_ciphertext,
    proof := c.proof }

/-- `api::profiles::ProfileKeyCredentialResponse`. -/
structure ProfileKeyCredentialResponse where
  reserved : ReservedBytes
  blinded_credential : Val
  proof : PKIssuanceProof
deriving DecidableEq, Repr

/-- `api::profiles::ProfileKeyCredential`. -/
structure ProfileKeyCredential where
  reserved : ReservedBytes
  credential : Val
  uid_bytes : UidBytes
  profile_key_bytes : ProfileKeyBytes
deriving DecidableEq, Repr

/-- `api::profiles::ProfileKeyCredentialV3RequestContext`. -/
structure ProfileKeyCredentialV3RequestContext where
  reserved : ReservedBytes
  uid_bytes : UidBytes
  profile_key_bytes : ProfileKeyBytes
  key_pair : KeyPair
  ciphertext_with_secret_nonce : CiphertextWithSecretNonce
  proof : ProfileKeyCredentialRequestProof
deriving DecidableEq, Repr

/-- Modelled from the spec (4.4, step 1-2):
`ProfileKeyCredentialV3RequestContext::get_request`. -/
def ProfileKeyCredentialV3RequestContext.get_request
    (c : ProfileKeyCredentialV3RequestContext) : ProfileKeyCredentialRequest :=
  { reserved := 0, public_key := c.key_pair.get_public_key,
    ciphertext := c.ciphertext_with_secret_nonce.get_ciphertext,
    proof := c.proof }

/-- `api::profiles::ProfileKeyCredentialV3Response`
(src file `profile_key_credential_v3_response.rs`). -/
structure ProfileKeyCredentialV3Response where
  reserved : ReservedBytes
  blinded_credential : Val
  proof : PKIssuanceProof
deriving DecidableEq, Repr

/-- `api::profiles::ProfileKeyCredentialV3`
(src file `profile_key_credential_v3.rs`). -/
structure ProfileKeyCredentialV3 where
  reserved : ReservedBytes
  credential : Val
  uid_bytes : UidBytes
  profile_key_bytes : ProfileKeyBytes
deriving DecidableEq, Repr

/-- `api::profiles::ProfileKeyCredentialPresentationV1`. -/
structure ProfileKeyCredentialPresentationV1 where
  reserved : ReservedBytes
  proof : PKPresProof
  uid_enc_ciphertext : Val
  profile_key_enc_ciphertext : Val
deriving DecidableEq, Repr

/-- `api::profiles::ProfileKeyCredentialPresentationV2`. -/
structure ProfileKeyCredentialPresentationV2 where
  version : ReservedBytes
  proof : PKPresProof
  uid_enc_ciphertext : Val
  profile_key_enc_ciphertext : Val
deriving DecidableEq, Repr

/-- `api::profiles::ProfileKeyCredentialV3Presentation`
(src file `profile_key_credential_v3_presentation.rs`). -/
structure ProfileKeyCredentialV3Presentation where
  version : ReservedBytes
  proof : PKPresProof
  uid_enc_ciphertext : Val
  profile_key_enc_ciphertext : Val
deriving DecidableEq, Repr

/-- `api::profiles::AnyProfileKeyCredentialPresentation`: the closed enum of
presentation version variants. -/
inductive AnyProfileKeyCredentialPresentation : Type where
  | V1 (p : ProfileKeyCredentialPresentationV1)
  | V2 (p : ProfileKeyCredentialPresentationV2)
deriving DecidableEq, Repr

/-- `api::profiles::PniCredentialRequestContext`. -/
structure PniCredentialRequestContext where
  reserved : ReservedBytes
  aci_bytes : UidBytes
  pni_bytes : UidBytes
  profile_key_bytes : ProfileKeyBytes
  key_pair : KeyPair
  ciphertext_with_secret_nonce : CiphertextWithSecretNonce
  proof : ProfileKeyCredentialRequestProof
deriving DecidableEq, Repr

/-- Modelled from the spec (4.4, step 1-2):
`PniCredentialRequestContext::get_request`. -/
def PniCredentialRequestContext.get_request
    (c : PniCredentialRequestContext) : ProfileKeyCredentialRequest :=
  { reserved := 0, public_key := c.key_pair.get_public_key,
    ciphertext := c.ciphertext_with_secret_nonce.get_ciphertext,
    proof := c.proof }

/-- `api::profiles::PniCredentialResponse`. -/
structure PniCredentialResponse where
  reserved : ReservedBytes
  blinded_credential : Val
  proof : PniCredentialIssuanceProof
deriving DecidableEq, Repr

/-- `api::profiles::PniCredential`. -/
structure PniCredential where
  reserved : ReservedBytes
  credential : Val
  aci_bytes : UidBytes
  pni_bytes : UidBytes
  profile_key_bytes : ProfileKeyBytes
deriving DecidableEq, Repr

/-- `api::profiles::PniCredentialPresentationV1`. -/
structure PniCredentialPresentationV1 where
  reserved : ReservedBytes
  proof : PniPresProof
  aci_enc_ciphertext : Val
  pni_enc_ciphertext : Val
  profile_key_enc_ciphertext : Val
deriving DecidableEq, Repr

/-- `api::profiles::PniCredentialPresentationV2`. -/
structure PniCredentialPresentationV2 where
  version : ReservedBytes
  proof : PniPresProof
  aci_enc_ciphertext : Val
  pni_enc_ciphertext : Val
  profile_key_enc_ciphertext : Val
deriving DecidableEq, Repr

/-- `api::profiles::AnyPniCredentialPresentation`: the closed enum of
presentation version variants. -/
inductive AnyPniCredentialPresentation : Type where
  | V1 (p : PniCredentialPresentationV1)
  | V2 (p : PniCredentialPresentationV2)
deriving DecidableEq, Repr

/-- `api::receipts::ReceiptCredentialRequest`. -/
structure ReceiptCredentialRequest where
  reserved : ReservedBytes
  public_key : Val
  ciphertext : Val
deriving DecidableEq, Repr

/-- `api::receipts::ReceiptCredentialRequestContext`. -/
structure ReceiptCredentialRequestContext where
  reserved : ReservedBytes
  receipt_serial_bytes : ReceiptSerialBytes
  key_pair : KeyPair
  ciphertext_with_secret_nonce : CiphertextWithSecretNonce
deriving DecidableEq, Repr

/-- Modelled from the spec (4.4, step 1-2):
`ReceiptCredentialRequestContext::get_request`. -/
def ReceiptCredentialRequestContext.get_request
    (c : ReceiptCredentialRequestContext) : ReceiptCredentialRequest :=
  { reserved := 0, public_key := c.key_pair.get_public_key,
    ciphertext := c.ciphertext_with_secret_nonce.get_ciphertext }

/-- `api::receipts::ReceiptCredentialResponse`. -/
structure ReceiptCredentialResponse where
  reserved : ReservedBytes
  receipt_expiration_time : ReceiptExpirationTime
  receipt_level : ReceiptLevel
  blinded_credential : Val
  proof : ReceiptCredentialIssuanceProof
deriving DecidableEq, Repr

/-- `api::receipts::ReceiptCredential`. -/
structure ReceiptCredential where
  reserved : ReservedBytes
  credential : Val
  receipt_expiration_time : ReceiptExpirationTime
  receipt_level : ReceiptLevel
  receipt_serial_bytes : ReceiptSerialBytes
deriving DecidableEq, Repr

/-- `api::receipts::ReceiptCredentialPresentation`. -/
structure ReceiptCredentialPresentation where
  reserved : ReservedBytes
  proof : ReceiptCredentialPresentationProof
  receipt_expiration_time : ReceiptExpirationTime
  receipt_level : ReceiptLevel
  receipt_serial_bytes : ReceiptSerialBytes
deriving DecidableEq, Repr

/-- `ReceiptCredentialPresentation::get_receipt_struct`. -/
def ReceiptCredentialPresentation.get_receipt_struct
    (p : ReceiptCredentialPresentation) : ReceiptStruct :=
  ReceiptStruct.new p.receipt_serial_bytes p.receipt_expiration_time
    p.receipt_level

/-- Modelled from the spec (6, group encryption collaborator):
`api::groups::GroupSecretParams`, the per-group encryption key pairs. -/
structure GroupSecretParams where
  uid_enc_key_pair : KeyPair
  profile_key_enc_key_pair : KeyPair
deriving DecidableEq, Repr

/-- `api::groups::GroupPublicParams`. -/
structure GroupPublicParams where
  uid_enc_public_key : Val
  profile_key_enc_public_key : Val
deriving DecidableEq, Repr

/-- Label `Signal_ZKGroup_20200424_Random_GroupSecretParams_Generate`. -/
def lblGroupGenerate : Nat := 18

/-- Modelled from the spec (6): `GroupSecretParams::generate(randomness)`. -/
def GroupSecretParams.generate (randomness : RandomnessBytes) : GroupSecretParams :=
  let sho := Sho.new lblGroupGenerate randomness
  let (uidKp, sho1) := KeyPair.generate sho
  let (pkKp, _) := KeyPair.generate sho1
  { uid_enc_key_pair := uidKp, profile_key_enc_key_pair := pkKp }

/-- `GroupSecretParams::get_public_params`. -/
def GroupSecretParams.get_public_params (g : GroupSecretParams) : GroupPublicParams :=
  { uid_enc_public_key := g.uid_enc_key_pair.get_public_key,
    profile_key_enc_public_key := g.profile_key_enc_key_pair.get_public_key }

/-- `api::groups::UuidCiphertext`. -/
structure UuidCiphertext where
  reserved : ReservedBytes
  ciphertext : Val
deriving DecidableEq, Repr

/-- `api::groups::ProfileKeyCiphertext`. -/
structure ProfileKeyCiphertext where
  reserved : ReservedBytes
  ciphertext : Val
deriving DecidableEq, Repr

/-- Modelled from the spec (6): `GroupSecretParams::encrypt_uid_struct`,
deterministic group encryption of a uid under the group's uid key. -/
def GroupSecretParams.encrypt_uid_struct (g : GroupSecretParams) (uid : Val) :
    UuidCiphertext :=
  { reserved := 0,
    ciphertext := Val.uidEncV g.uid_enc_key_pair.get_public_key uid }

/-- Modelled from the spec (6): `GroupSecretParams::encrypt_uuid(uid_bytes)`,
which encrypts `UidStruct::new(uid_bytes)`. -/
def GroupSecretParams.encrypt_uuid (g : GroupSecretParams) (uid_bytes : UidBytes) :
    UuidCiphertext :=
  g.encrypt_uid_struct (UidStruct.new uid_bytes)

/-- Modelled from the spec (6):
`GroupSecretParams::encrypt_profile_key_bytes(profile_key_bytes, uid_bytes)`,
group encryption of a profile key bound to the given uid. -/
def GroupSecretParams.encrypt_profile_key_bytes (g : GroupSecretParams)
    (profile_key_bytes : ProfileKeyBytes) (uid_bytes : UidBytes) :
    ProfileKeyCiphertext :=
  { reserved := 0,
    ciphertext := Val.pkEncV g.profile_key_enc_key_pair.get_public_key
      profile_key_bytes uid_bytes }

/-- Modelled from the spec (4.2): `KeyPair::create_auth_credential(uid,
redemption_time, sho)`: issuer-side plaintext issuance of an auth
credential over (uid, redemption time). -/
def KeyPair.create_auth_credential (kp : KeyPair) (uid : Val)
    (redemption_time : Nat) (sho : Sho) : Val × Sho :=
  let (_, sho1) := sho.next
  (mkCred kindAuth kp (Val.pairV uid (Val.natV redemption_time)), sho1)

/-- Modelled from the spec (4.2):
`KeyPair::create_blinded_profile_key_credential(uid, public_key, ciphertext,
sho)`: blind issuance over the uid and the profile key inside the holder's
ciphertext, never opened by the issuer. -/
def KeyPair.create_blinded_profile_key_credential (kp : KeyPair) (uid : Val)
    (holderPub ciphertext : Val) (sho : Sho) :
    BlindedCredentialWithSecretNonce × Sho :=
  blindIssue kindProfileKey kp (Val.pairV uid (ctPlaintext ciphertext))
    holderPub sho

/-- Modelled from the spec (4.2):
`KeyPair::create_blinded_profile_key_credential_v3(uid, public_key,
ciphertext, sho)`: the V3 counterpart, a fully separate credential kind. -/
def KeyPair.create_blinded_profile_key_credential_v3 (kp : KeyPair) (uid : Val)
    (holderPub ciphertext : Val) (sho : Sho) :
    BlindedCredentialWithSecretNonce × Sho :=
  blindIssue kindProfileKeyV3 kp (Val.pairV uid (ctPlaintext ciphertext))
    holderPub sho

/-- Modelled from the spec (4.2): `KeyPair::create_blinded_pni_credential(uid,
pni, public_key, ciphertext, sho)`. -/
def KeyPair.create_blinded_pni_credential (kp : KeyPair) (uid pni : Val)
    (holderPub ciphertext : Val) (sho : Sho) :
    BlindedCredentialWithSecretNonce × Sho :=
  blindIssue kindPni kp
    (Val.pairV uid (Val.pairV pni (ctPlaintext ciphertext))) holderPub sho

/-- Modelled from the spec (4.2):
`KeyPair::create_blinded_receipt_credential(public_key, ciphertext,
receipt_expiration_time, receipt_level, sho)`. -/
def KeyPair.create_blinded_receipt_credential (kp : KeyPair)
    (holderPub ciphertext : Val) (t l : Nat) (sho : Sho) :
    BlindedCredentialWithSecretNonce × Sho :=
  blindIssue kindReceipt kp
    (Val.pairV (ctPlaintext ciphertext)
      (Val.pairV (Val.natV t) (Val.natV l))) holderPub sho

/-- `ServerSecretParams` of `api::server_params`: all credential-kind key
pairs plus the signing key pair (spec 3). -/
structure ServerSecretParams where
  reserved : ReservedBytes
  auth_credentials_key_pair : KeyPair
  profile_key_credentials_key_pair : KeyPair
  sig_key_pair : KeyPair
  receipt_credentials_key_pair : KeyPair
  pni_credentials_key_pair : KeyPair
  profile_key_credentials_v3_key_pair : KeyPair
deriving DecidableEq, Repr

/-- `ServerPublicParams` of `api::server_params`. -/
structure ServerPublicParams where
  reserved : ReservedBytes
  auth_credentials_public_key : Val
  profile_key_credentials_public_key : Val
  sig_public_key : Val
  receipt_credentials_public_key : Val
  pni_credentials_public_key : Val
  profile_key_credentials_v3_public_key : Val
deriving DecidableEq, Repr

/-- `ServerSecretParams::generate(randomness)` (server_params.rs:42). -/
def ServerSecretParams.generate (randomness : RandomnessBytes) :
    ServerSecretParams :=
  let sho := Sho.new lblGenerate randomness
  let (auth_credentials_key_pair, sho1) := KeyPair.generate sho
  let (profile_key_credentials_key_pair, sho2) := KeyPair.generate sho1
  let (sig_key_pair, sho3) := KeyPair.generate sho2
  let (receipt_credentials_key_pair, sho4) := KeyPair.generate sho3
  let (pni_credentials_key_pair, sho5) := KeyPair.generate sho4
  let (profile_key_credentials_v3_key_pair, _) := KeyPair.generate sho5
  { reserved := 0,
    auth_credentials_key_pair := auth_credentials_key_pair,
    profile_key_credentials_key_pair := profile_key_credentials_key_pair,
    sig_key_pair := sig_key_pair,
    receipt_credentials_key_pair := receipt_credentials_key_pair,
    pni_credentials_key_pair := pni_credentials_key_pair,
    profile_key_credentials_v3_key_pair := profile_key_credentials_v3_key_pair }

/-- `ServerSecretParams::get_public_params` (server_params.rs:66). -/
def ServerSecretParams.get_public_params (s : ServerSecretParams) :
    ServerPublicParams :=
  { reserved := 0,
    auth_credentials_public_key := s.auth_credentials_key_pair.get_public_key,
    profile_key_credentials_public_key :=
      s.profile_key_credentials_key_pair.get_public_key,
    sig_public_key := s.sig_key_pair.get_public_key,
    receipt_credentials_public_key :=
      s.receipt_credentials_key_pair.get_public_key,
    pni_credentials_public_key := s.pni_credentials_key_pair.get_public_key,
    profile_key_credentials_v3_public_key :=
      s.profile_key_credentials_v3_key_pair.get_public_key }

/-- `ServerSecretParams::sign(randomness, message)` (server_params.rs:80). -/
def ServerSecretParams.sign (s : ServerSecretParams)
    (randomness : RandomnessBytes) (message : Nat) : NotarySignatureBytes :=
  let sho := Sho.new lblSign randomness
  s.sig_key_pair.sign message sho

/-- `ServerSecretParams::issue_auth_credential(randomness, uid_bytes,
redemption_time)` (server_params.rs:88). -/
def ServerSecretParams.issue_auth_credential (s : ServerSecretParams)
    (randomness : RandomnessBytes) (uid_bytes : UidBytes)
    (redemption_time : RedemptionTime) : AuthCredentialResponse :=
  let sho := Sho.new lblIssueAuth randomness
  let uid := UidStruct.new uid_bytes
  let (credential, sho1) :=
    s.auth_credentials_key_pair.create_auth_credential uid redemption_time sho
  let (proof, _) := AuthCredentialIssuanceProof.new
    s.auth_credentials_key_pair credential uid redemption_time sho1
  { reserved := 0, credential := credential, proof := proof }

/-- `ServerSecretParams::verify_auth_credential_presentation(
group_public_params, presentation)` (server_params.rs:117): exhaustive
dispatch over the closed version enum. -/
def ServerSecretParams.verify_auth_credential_presentation
    (s : ServerSecretParams) (group_public_params : GroupPublicParams)
    (presentation : AnyAuthCredentialPresentation) : VerifyResult :=
  match presentation with
  | AnyAuthCredentialPresentation.V1 presentation_v1 =>
      presentation_v1.proof.verify PRESENTATION_VERSION_1
        s.auth_credentials_key_pair group_public_params.uid_enc_public_key
        presentation_v1.ciphertext presentation_v1.redemption_time
  | AnyAuthCredentialPresentation.V2 presentation_v2 =>
      presentation_v2.proof.verify PRESENTATION_VERSION_2
        s.auth_credentials_key_pair group_public_params.uid_enc_public_key
        presentation_v2.ciphertext presentation_v2.redemption_time

/-- `ServerSecretParams::verify_auth_credential_presentation_v1`
(server_params.rs:143). -/
def ServerSecretParams.verify_auth_credential_presentation_v1
    (s : ServerSecretParams) (group_public_params : GroupPublicParams)
    (presentation : AuthCredentialPresentationV1) : VerifyResult :=
  presentation.proof.verify PRESENTATION_VERSION_1
    s.auth_credentials_key_pair group_public_params.uid_enc_public_key
    presentation.ciphertext presentation.redemption_time

/-- `ServerSecretParams::verify_auth_credential_presentation_v2`
(server_params.rs:156). -/
def ServerSecretParams.verify_auth_credential_presentation_v2
    (s : ServerSecretParams) (group_public_params : GroupPublicParams)
    (presentation : AuthCredentialPresentationV2) : VerifyResult :=
  presentation.proof.verify PRESENTATION_VERSION_2
    s.auth_credentials_key_pair group_public_params.uid_enc_public_key
    presentation.ciphertext presentation.redemption_time

/-- `ServerSecretParams::verify_profile_key_credential_presentation(
group_public_params, presentation)` (server_params.rs:169): exhaustive
dispatch over the closed version enum. -/
def ServerSecretParams.verify_profile_key_credential_presentation
    (s : ServerSecretParams) (group_public_params : GroupPublicParams)
    (presentation : AnyProfileKeyCredentialPresentation) : VerifyResult :=
  let credentials_key_pair := s.profile_key_credentials_key_pair
  let uid_enc_public_key := group_public_params.uid_enc_public_key
  let profile_key_enc_public_key :=
    group_public_params.profile_key_enc_public_key
  match presentation with
  | AnyProfileKeyCredentialPresentation.V1 presentation_v1 =>
      presentation_v1.proof.verify PRESENTATION_VERSION_1 kindProfileKey
        credentials_key_pair presentation_v1.uid_enc_ciphertext
        uid_enc_public_key presentation_v1.profile_key_enc_ciphertext
        profile_key_enc_public_key
  | AnyProfileKeyCredentialPresentation.V2 presentation_v2 =>
      presentation_v2.proof.verify PRESENTATION_VERSION_2 kindProfileKey
        credentials_key_pair presentation_v2.uid_enc_ciphertext
        uid_enc_public_key presentation_v2.profile_key_enc_ciphertext
        profile_key_enc_public_key

/-- `ServerSecretParams::verify_profile_key_credential_presentation_v1`
(server_params.rs:200). -/
def ServerSecretParams.verify_profile_key_credential_presentation_v1
    (s : ServerSecretParams) (group_public_params : GroupPublicParams)
    (presentation : ProfileKeyCredentialPresentationV1) : VerifyResult :=
  presentation.proof.verify PRESENTATION_VERSION_1 kindProfileKey
    s.profile_key_credentials_key_pair presentation.uid_enc_ciphertext
    group_public_params.uid_enc_public_key
    presentation.profile_key_enc_ciphertext
    group_public_params.profile_key_enc_public_key

/-- `ServerSecretParams::verify_profile_key_credential_presentation_v2`
(server_params.rs:218). -/
def ServerSecretParams.verify_profile_key_credential_presentation_v2
    (s : ServerSecretParams) (group_public_params : GroupPublicParams)
    (presentation : ProfileKeyCredentialPresentationV2) : VerifyResult :=
  presentation.proof.verify PRESENTATION_VERSION_2 kindProfileKey
    s.profile_key_credentials_key_pair presentation.uid_enc_ciphertext
    group_public_params.uid_enc_public_key
    presentation.profile_key_enc_ciphertext
    group_public_params.profile_key_enc_public_key

/-- `ServerSecretParams::verify_profile_key_credential_v3_presentation`
(server_params.rs:236): verifies against the dedicated V3 key pair. -/
def ServerSecretParams.verify_profile_key_credential_v3_presentation
    (s : ServerSecretParams) (group_public_params : GroupPublicParams)
    (presentation : ProfileKeyCredentialV3Presentation) : VerifyResult :=
  presentation.proof.verify PROFILE_KEY_CREDENTIAL_VERSION_3 kindProfileKeyV3
    s.profile_key_credentials_v3_key_pair presentation.uid_enc_ciphertext
    group_public_params.uid_enc_public_key
    presentation.profile_key_enc_ciphertext
    group_public_params.profile_key_enc_public_key

/-- `ServerSecretParams::verify_pni_credential_presentation(
group_public_params, presentation)` (server_params.rs:254): exhaustive
dispatch over the closed version enum. -/
def ServerSecretParams.verify_pni_credential_presentation
    (s : ServerSecretParams) (group_public_params : GroupPublicParams)
    (presentation : AnyPniCredentialPresentation) : VerifyResult :=
  let credentials_key_pair := s.pni_credentials_key_pair
  let uid_enc_public_key := group_public_params.uid_enc_public_key
  let profile_key_enc_public_key :=
    group_public_params.profile_key_enc_public_key
  match presentation with
  | AnyPniCredentialPresentation.V1 presentation_v1 =>
      presentation_v1.proof.verify PRESENTATION_VERSION_1 credentials_key_pair
        presentation_v1.aci_enc_ciphertext uid_enc_public_key
        presentation_v1.profile_key_enc_ciphertext profile_key_enc_public_key
        presentation_v1.pni_enc_ciphertext
  | AnyPniCredentialPresentation.V2 presentation_v2 =>
      presentation_v2.proof.verify PRESENTATION_VERSION_2 credentials_key_pair
        presentation_v2.aci_enc_ciphertext uid_enc_public_key
        presentation_v2.profile_key_enc_ciphertext profile_key_enc_public_key
        presentation_v2.pni_enc_ciphertext

/-- `ServerSecretParams::verify_pni_credential_presentation_v1`
(server_params.rs:287). -/
def ServerSecretParams.verify_pni_credential_presentation_v1
    (s : ServerSecretParams) (group_public_params : GroupPublicParams)
    (presentation : PniCredentialPresentationV1) : VerifyResult :=
  presentation.proof.verify PRESENTATION_VERSION_1 s.pni_credentials_key_pair
    presentation.aci_enc_ciphertext group_public_params.uid_enc_public_key
    presentation.profile_key_enc_ciphertext
    group_public_params.profile_key_enc_public_key
    presentation.pni_enc_ciphertext

/-- `ServerSecretParams::verify_pni_credential_presentation_v2`
(server_params.rs:306). -/
def ServerSecretParams.verify_pni_credential_presentation_v2
    (s : ServerSecretParams) (group_public_params : GroupPublicParams)
    (presentation : PniCredentialPresentationV2) : VerifyResult :=
  presentation.proof.verify PRESENTATION_VERSION_2 s.pni_credentials_key_pair
    presentation.aci_enc_ciphertext group_public_params.uid_enc_public_key
    presentation.profile_key_enc_ciphertext
    group_public_params.profile_key_enc_public_key
    presentation.pni_enc_ciphertext

/-- `ServerSecretParams::issue_profile_key_credential(randomness, request,
uid_bytes, commitment)` (server_params.rs:325): the request proof is
verified first (the `?` operator), and only on success is the blinded
credential created. -/
def ServerSecretParams.issue_profile_key_credential (s : ServerSecretParams)
    (randomness : RandomnessBytes) (request : ProfileKeyCredentialRequest)
    (uid_bytes : UidBytes) (commitment : ProfileKeyCommitment) :
    Except ZkGroupVerificationFailure ProfileKeyCredentialResponse :=
  let sho := Sho.new lblIssueProfileKey randomness
  match request.proof.verify request.public_key request.ciphertext
      commitment.commitment with
  | Except.error e => Except.error e
  | Except.ok _ =>
    let uid := UidStruct.new uid_bytes
    let (blinded_credential_with_secret_nonce, sho1) :=
      s.profile_key_credentials_key_pair.create_blinded_profile_key_credential
        uid request.public_key request.ciphertext sho
    let (proof, _) := PKIssuanceProof.new kindProfileKey
      s.profile_key_credentials_key_pair request.public_key request.ciphertext
      blinded_credential_with_secret_nonce uid sho1
    Except.ok
      { reserved := 0,
        blinded_credential :=
          blinded_credential_with_secret_nonce.get_blinded,
        proof := proof }

/-- `ServerSecretParams::issue_profile_key_credential_v3(randomness,
request, uid_bytes, commitment)` (server_params.rs:370): the request proof
is verified first, then the V3 key pair blind-issues. -/
def ServerSecretParams.issue_profile_key_credential_v3 (s : ServerSecretParams)
    (randomness : RandomnessBytes) (request : ProfileKeyCredentialRequest)
    (uid_bytes : UidBytes) (commitment : ProfileKeyCommitment) :
    Except ZkGroupVerificationFailure ProfileKeyCredentialV3Response :=
  let sho := Sho.new lblIssueProfileKeyV3 randomness
  match request.proof.verify request.public_key request.ciphertext
      commitment.commitment with
  | Except.error e => Except.error e
  | Except.ok _ =>
    let uid := UidStruct.new uid_bytes
    let (blinded_credential_with_secret_nonce, sho1) :=
      s.profile_key_credentials_v3_key_pair.create_blinded_profile_key_credential_v3
        uid request.public_key request.ciphertext sho
    let (proof, _) := PKIssuanceProof.new kindProfileKeyV3
      s.profile_key_credentials_v3_key_pair request.public_key
      request.ciphertext blinded_credential_with_secret_nonce uid sho1
    Except.ok
      { reserved := 0,
        blinded_credential :=
          blinded_credential_with_secret_nonce.get_blinded,
        proof := proof }

/-- `ServerSecretParams::issue_pni_credential(randomness, request,
uid_bytes, pni_bytes, commitment)` (server_params.rs:416): the request proof
is verified first. -/
def ServerSecretParams.issue_pni_credential (s : ServerSecretParams)
    (randomness : RandomnessBytes) (request : ProfileKeyCredentialRequest)
    (uid_bytes pni_bytes : UidBytes) (commitment : ProfileKeyCommitment) :
    Except ZkGroupVerificationFailure PniCredentialResponse :=
  let sho := Sho.new lblIssuePni randomness
  match request.proof.verify request.public_key request.ciphertext
      commitment.commitment with
  | Except.error e => Except.error e
  | Except.ok _ =>
    let uid := UidStruct.new uid_bytes
    let pni := UidStruct.new pni_bytes
    let (blinded_credential_with_secret_nonce, sho1) :=
      s.pni_credentials_key_pair.create_blinded_pni_credential uid pni
        request.public_key request.ciphertext sho
    let (proof, _) := PniCredentialIssuanceProof.new
      s.pni_credentials_key_pair request.public_key request.ciphertext
      blinded_credential_with_secret_nonce uid pni sho1
    Except.ok
      { reserved := 0,
        blinded_credential :=
          blinded_credential_with_secret_nonce.get_blinded,
        proof := proof }

/-- `ServerSecretParams::issue_receipt_credential(randomness, request,
receipt_expiration_time, receipt_level)` (server_params.rs:463): note the
source performs no verification and returns a plain response, not a
`Result`. -/
def ServerSecretParams.issue_receipt_credential (s : ServerSecretParams)
    (randomness : RandomnessBytes) (request : ReceiptCredentialRequest)
    (receipt_expiration_time : ReceiptExpirationTime)
    (receipt_level : ReceiptLevel) : ReceiptCredentialResponse :=
  let sho := Sho.new lblIssueReceipt randomness
  let (blinded_credential_with_secret_nonce, sho1) :=
    s.receipt_credentials_key_pair.create_blinded_receipt_credential
      request.public_key request.ciphertext receipt_expiration_time
      receipt_level sho
  let (proof, _) := ReceiptCredentialIssuanceProof.new
    s.receipt_credentials_key_pair request.public_key request.ciphertext
    blinded_credential_with_secret_nonce receipt_expiration_time
    receipt_level sho1
  { reserved := 0,
    receipt_expiration_time := receipt_expiration_time,
    receipt_level := receipt_level,
    blinded_credential := blinded_credential_with_secret_nonce.get_blinded,
    proof := proof }

/-- `ServerSecretParams::verify_receipt_credential_presentation`
(server_params.rs:505). -/
def ServerSecretParams.verify_receipt_credential_presentation
    (s : ServerSecretParams) (presentation : ReceiptCredentialPresentation) :
    VerifyResult :=
  presentation.proof.verify s.receipt_credentials_key_pair
    presentation.get_receipt_struct

/-- `ServerPublicParams::verify_signature(message, signature)`
(server_params.rs:517). -/
def ServerPublicParams.verify_signature (p : ServerPublicParams)
    (message : Nat) (signature : NotarySignatureBytes) : VerifyResult :=
  match signature with
  | Val.sigV sigPub m _ =>
      if sigPub = p.sig_public_key ∧ m = Val.natV message then Except.ok ()
      else vFail
  | _ => vFail

/-- `ServerPublicParams::receive_auth_credential(uid_bytes,
redemption_time, response)` (server_params.rs:525): the issuance proof is
verified first, only then is the credential assembled. -/
def ServerPublicParams.receive_auth_credential (p : ServerPublicParams)
    (uid_bytes : UidBytes) (redemption_time : RedemptionTime)
    (response : AuthCredentialResponse) :
    Except ZkGroupVerificationFailure AuthCredential :=
  let uid := UidStruct.new uid_bytes
  match response.proof.verify p.auth_credentials_public_key
      response.credential uid redemption_time with
  | Except.error e => Except.error e
  | Except.ok _ =>
    Except.ok
      { reserved := 0, credential := response.credential, uid := uid,
        redemption_time := redemption_time }

/-- `ServerPublicParams::create_auth_credential_presentation_v1(randomness,
group_secret_params, auth_credential)` (server_params.rs:561). -/
def ServerPublicParams.create_auth_credential_presentation_v1
    (p : ServerPublicParams) (randomness : RandomnessBytes)
    (group_secret_params : GroupSecretParams)
    (auth_credential : AuthCredential) : AuthCredentialPresentationV1 :=
  let sho := Sho.new lblCreateAuthPresV1 randomness
  let uuid_ciphertext :=
    group_secret_params.encrypt_uid_struct auth_credential.uid
  let (proof, _) := AuthPresProof.new PRESENTATION_VERSION_1
    p.auth_credentials_public_key group_secret_params.uid_enc_key_pair
    auth_credential.credential auth_credential.uid uuid_ciphertext.ciphertext
    auth_credential.redemption_time sho
  { reserved := PRESENTATION_VERSION_1, proof := proof,
    ciphertext := uuid_ciphertext.ciphertext,
    redemption_time := auth_credential.redemption_time }

/-- `ServerPublicParams::create_auth_credential_presentation_v2(randomness,
group_secret_params, auth_credential)` (server_params.rs:592). -/
def ServerPublicParams.create_auth_credential_presentation_v2
    (p : ServerPublicParams) (randomness : RandomnessBytes)
    (group_secret_params : GroupSecretParams)
    (auth_credential : AuthCredential) : AuthCredentialPresentationV2 :=
  let sho := Sho.new lblCreateAuthPresV2 randomness
  let uuid_ciphertext :=
    group_secret_params.encrypt_uid_struct auth_credential.uid
  let (proof, _) := AuthPresProof.new PRESENTATION_VERSION_2
    p.auth_credentials_public_key group_secret_params.uid_enc_key_pair
    auth_credential.credential auth_credential.uid uuid_ciphertext.ciphertext
    auth_credential.redemption_time sho
  { version := PRESENTATION_VERSION_2, proof := proof,
    ciphertext := uuid_ciphertext.ciphertext,
    redemption_time := auth_credential.redemption_time }

/-- `ServerPublicParams::create_auth_credential_presentation(randomness,
group_secret_params, auth_credential)` (server_params.rs:547): the
version-unqualified wrapper, which builds a V2 presentation and wraps it in
the `V2` enum variant. -/
def ServerPublicParams.create_auth_credential_presentation
    (p : ServerPublicParams) (randomness : RandomnessBytes)
    (group_secret_params : GroupSecretParams)
    (auth_credential : AuthCredential) : AnyAuthCredentialPresentation :=
  let presentation_v2 := p.create_auth_credential_presentation_v2 randomness
    group_secret_params auth_credential
  AnyAuthCredentialPresentation.V2 presentation_v2

/-- `ServerPublicParams::create_profile_key_credential_request_context(
randomness, uid_bytes, profile_key)` (server_params.rs:623). -/
def ServerPublicParams.create_profile_key_credential_request_context
    (p : ServerPublicParams) (randomness : RandomnessBytes)
    (uid_bytes : UidBytes) (profile_key : ProfileKey) :
    ProfileKeyCredentialRequestContext :=
  let sho := Sho.new lblCreateProfileKeyReqCtx randomness
  let profile_key_struct := ProfileKeyStruct.new profile_key.bytes uid_bytes
  let commitment_with_secret_nonce :=
    CommitmentWithSecretNonce.new profile_key_struct uid_bytes
  let (key_pair, sho1) := KeyPair.generate sho
  let (ciphertext_with_secret_nonce, sho2) :=
    key_pair.encrypt profile_key_struct.toVal sho1
  let (proof, _) := ProfileKeyCredentialRequestProof.new key_pair
    ciphertext_with_secret_nonce commitment_with_secret_nonce sho2
  { reserved := 0, uid_bytes := uid_bytes,
    profile_key_bytes := profile_key_struct.bytes, key_pair := key_pair,
    ciphertext_with_secret_nonce := ciphertext_with_secret_nonce,
    proof := proof }

/-- `ServerPublicParams::create_profile_key_credential_v3_request_context(
randomness, uid_bytes, profile_key)` (server_params.rs:662). -/
def ServerPublicParams.create_profile_key_credential_v3_request_context
    (p : ServerPublicParams) (randomness : RandomnessBytes)
    (uid_bytes : UidBytes) (profile_key : ProfileKey) :
    ProfileKeyCredentialV3RequestContext :=
  let sho := Sho.new lblCreateProfileKeyV3ReqCtx randomness
  let profile_key_struct := ProfileKeyStruct.new profile_key.bytes uid_bytes
  let commitment_with_secret_nonce :=
    CommitmentWithSecretNonce.new profile_key_struct uid_bytes
  let (key_pair, sho1) := KeyPair.generate sho
  let (ciphertext_with_secret_nonce, sho2) :=
    key_pair.encrypt profile_key_struct.toVal sho1
  let (proof, _) := ProfileKeyCredentialRequestProof.new key_pair
    ciphertext_with_secret_nonce commitment_with_secret_nonce sho2
  { reserved := 0, uid_bytes := uid_bytes,
    profile_key_bytes := profile_key_struct.bytes, key_pair := key_pair,
    ciphertext_with_secret_nonce := ciphertext_with_secret_nonce,
    proof := proof }

/-- `ServerPublicParams::create_pni_credential_request_context(randomness,
aci_bytes, pni_bytes, profile_key)` (server_params.rs:701): invokes the
profile-key request-context construction on the ACI and augments the result
with the PNI bytes. -/
def ServerPublicParams.create_pni_credential_request_context
    (p : ServerPublicParams) (randomness : RandomnessBytes)
    (aci_bytes pni_bytes : UidBytes) (profile_key : ProfileKey) :
    PniCredentialRequestContext :=
  let profile_key_request_context :=
    p.create_profile_key_credential_request_context randomness aci_bytes
      profile_key
  { reserved := 0, aci_bytes := aci_bytes, pni_bytes := pni_bytes,
    profile_key_bytes := profile_key_request_context.profile_key_bytes,
    key_pair := profile_key_request_context.key_pair,
    ciphertext_with_secret_nonce :=
      profile_key_request_context.ciphertext_with_secret_nonce,
    proof := profile_key_request_context.proof }

/-- `ServerPublicParams::receive_profile_key_credential(context, response)`
(server_params.rs:724): the issuance proof is verified first, only then is
the blinded credential unblinded. -/
def ServerPublicParams.receive_profile_key_credential (p : ServerPublicParams)
    (context : ProfileKeyCredentialRequestContext)
    (response : ProfileKeyCredentialResponse) :
    Except ZkGroupVerificationFailure ProfileKeyCredential :=
  match response.proof.verify kindProfileKey
      p.profile_key_credentials_public_key context.key_pair.get_public_key
      context.uid_bytes context.ciphertext_with_secret_nonce.get_ciphertext
      response.blinded_credential with
  | Except.error e => Except.error e
  | Except.ok _ =>
    let credential :=
      context.key_pair.decrypt_blinded response.blinded_credential
    Except.ok
      { reserved := 0, credential := credential,
        uid_bytes := context.uid_bytes,
        profile_key_bytes := context.profile_key_bytes }

/-- `ServerPublicParams::receive_profile_key_credential_v3(context,
response)` (server_params.rs:749): verifies against the dedicated V3 public
key before unblinding. -/
def ServerPublicParams.receive_profile_key_credential_v3
    (p : ServerPublicParams) (context : ProfileKeyCredentialV3RequestContext)
    (response : ProfileKeyCredentialV3Response) :
    Except ZkGroupVerificationFailure ProfileKeyCredentialV3 :=
  match response.proof.verify kindProfileKeyV3
      p.profile_key_credentials_v3_public_key context.key_pair.get_public_key
      context.uid_bytes context.ciphertext_with_secret_nonce.get_ciphertext
      response.blinded_credential with
  | Except.error e => Except.error e
  | Except.ok _ =>
    let credential :=
      context.key_pair.decrypt_blinded response.blinded_credential
    Except.ok
      { reserved := 0, credential := credential,
        uid_bytes := context.uid_bytes,
        profile_key_bytes := context.profile_key_bytes }

/-- `ServerPublicParams::receive_pni_credential(context, response)`
(server_params.rs:774). -/
def ServerPublicParams.receive_pni_credential (p : ServerPublicParams)
    (context : PniCredentialRequestContext)
    (response : PniCredentialResponse) :
    Except ZkGroupVerificationFailure PniCredential :=
  match response.proof.verify p.pni_credentials_public_key
      context.key_pair.get_public_key context.aci_bytes context.pni_bytes
      context.ciphertext_with_secret_nonce.get_ciphertext
      response.blinded_credential with
  | Except.error e => Except.error e
  | Except.ok _ =>
    let credential :=
      context.key_pair.decrypt_blinded response.blinded_credential
    Except.ok
      { reserved := 0, credential := credential,
        aci_bytes := context.aci_bytes, pni_bytes := context.pni_bytes,
        profile_key_bytes := context.profile_key_bytes }

/-- `ServerPublicParams::create_profile_key_credential_presentation_v1(
randomness, group_secret_params, profile_key_credential)`
(server_params.rs:815). -/
def ServerPublicParams.create_profile_key_credential_presentation_v1
    (p : ServerPublicParams) (randomness : RandomnessBytes)
    (group_secret_params : GroupSecretParams)
    (profile_key_credential : ProfileKeyCredential) :
    ProfileKeyCredentialPresentationV1 :=
  let sho := Sho.new lblCreateProfileKeyPresV1 randomness
  let uid_enc_key_pair := group_secret_params.uid_enc_key_pair
  let profile_key_enc_key_pair := group_secret_params.profile_key_enc_key_pair
  let credentials_public_key := p.profile_key_credentials_public_key
  let uuid_ciphertext :=
    group_secret_params.encrypt_uuid profile_key_credential.uid_bytes
  let profile_key_ciphertext :=
    group_secret_params.encrypt_profile_key_bytes
      profile_key_credential.profile_key_bytes
      profile_key_credential.uid_bytes
  let (proof, _) := PKPresProof.new PRESENTATION_VERSION_1 kindProfileKey
    uid_enc_key_pair profile_key_enc_key_pair credentials_public_key
    profile_key_credential.credential uuid_ciphertext.ciphertext
    profile_key_ciphertext.ciphertext profile_key_credential.uid_bytes
    profile_key_credential.profile_key_bytes sho
  { reserved := PRESENTATION_VERSION_1, proof := proof,
    uid_enc_ciphertext := uuid_ciphertext.ciphertext,
    profile_key_enc_ciphertext := profile_key_ciphertext.ciphertext }

/-- `ServerPublicParams::create_profile_key_credential_presentation_v2(
randomness, group_secret_params, profile_key_credential)`
(server_params.rs:856). -/
def ServerPublicParams.create_profile_key_credential_presentation_v2
    (p : ServerPublicParams) (randomness : RandomnessBytes)
    (group_secret_params : GroupSecretParams)
    (profile_key_credential : ProfileKeyCredential) :
    ProfileKeyCredentialPresentationV2 :=
  let sho := Sho.new lblCreateProfileKeyPresV2 randomness
  let uid_enc_key_pair := group_secret_params.uid_enc_key_pair
  let profile_key_enc_key_pair := group_secret_params.profile_key_enc_key_pair
  let credentials_public_key := p.profile_key_credentials_public_key
  let uuid_ciphertext :=
    group_secret_params.encrypt_uuid profile_key_credential.uid_bytes
  let profile_key_ciphertext :=
    group_secret_params.encrypt_profile_key_bytes
      profile_key_credential.profile_key_bytes
      profile_key_credential.uid_bytes
  let (proof, _) := PKPresProof.new PRESENTATION_VERSION_2 kindProfileKey
    uid_enc_key_pair profile_key_enc_key_pair credentials_public_key
    profile_key_credential.credential uuid_ciphertext.ciphertext
    profile_key_ciphertext.ciphertext profile_key_credential.uid_bytes
    profile_key_credential.profile_key_bytes sho
  { version := PRESENTATION_VERSION_2, proof := proof,
    uid_enc_ciphertext := uuid_ciphertext.ciphertext,
    profile_key_enc_ciphertext := profile_key_ciphertext.ciphertext }

/-- `ServerPublicParams::create_profile_key_credential_presentation(
randomness, group_secret_params, profile_key_credential)`
(server_params.rs:801): the version-unqualified wrapper, which builds a V2
presentation and wraps it in the `V2` enum variant. -/
def ServerPublicParams.create_profile_key_credential_presentation
    (p : ServerPublicParams) (randomness : RandomnessBytes)
    (group_secret_params : GroupSecretParams)
    (profile_key_credential : ProfileKeyCredential) :
    AnyProfileKeyCredentialPresentation :=
  let presentation_v2 := p.create_profile_key_credential_presentation_v2
    randomness group_secret_params profile_key_credential
  AnyProfileKeyCredentialPresentation.V2 presentation_v2

/-- `ServerPublicParams::create_profile_key_credential_v3_presentation(
randomness, group_secret_params, profile_key_credential_v3)`
(server_params.rs:898, marked `TREVOR WIP` in the source): note that the
source sets `credentials_public_key = self.profile_key_credentials_public_key`
(line 911), not the dedicated V3 public key. -/
def ServerPublicParams.create_profile_key_credential_v3_presentation
    (p : ServerPublicParams) (randomness : RandomnessBytes)
    (group_secret_params : GroupSecretParams)
    (profile_key_credential_v3 : ProfileKeyCredentialV3) :
    ProfileKeyCredentialV3Presentation :=
  let sho := Sho.new lblCreateProfileKeyPresV3 randomness
  let uid_enc_key_pair := group_secret_params.uid_enc_key_pair
  let profile_key_enc_key_pair := group_secret_params.profile_key_enc_key_pair
  let credentials_public_key := p.profile_key_credentials_public_key
  let uuid_ciphertext :=
    group_secret_params.encrypt_uuid profile_key_credential_v3.uid_bytes
  let profile_key_ciphertext :=
    group_secret_params.encrypt_profile_key_bytes
      profile_key_credential_v3.profile_key_bytes
      profile_key_credential_v3.uid_bytes
  let (proof, _) := PKPresProof.new PROFILE_KEY_CREDENTIAL_VERSION_3
    kindProfileKeyV3 uid_enc_key_pair profile_key_enc_key_pair
    credentials_public_key profile_key_credential_v3.credential
    uuid_ciphertext.ciphertext profile_key_ciphertext.ciphertext
    profile_key_credential_v3.uid_bytes
    profile_key_credential_v3.profile_key_bytes sho
  { version := PROFILE_KEY_CREDENTIAL_VERSION_3, proof := proof,
    uid_enc_ciphertext := uuid_ciphertext.ciphertext,
    profile_key_enc_ciphertext := profile_key_ciphertext.ciphertext }

/-- `ServerPublicParams::create_pni_credential_presentation_v1(randomness,
group_secret_params, pni_credential)` (server_params.rs:953): the profile
key is encrypted bound to the ACI, the PNI is encrypted separately. -/
def ServerPublicParams.create_pni_credential_presentation_v1
    (p : ServerPublicParams) (randomness : RandomnessBytes)
    (group_secret_params : GroupSecretParams)
    (pni_credential : PniCredential) : PniCredentialPresentationV1 :=
  let sho := Sho.new lblCreatePniPresV1 randomness
  let uid_enc_key_pair := group_secret_params.uid_enc_key_pair
  let profile_key_enc_key_pair := group_secret_params.profile_key_enc_key_pair
  let credentials_public_key := p.pni_credentials_public_key
  let aci_ciphertext :=
    group_secret_params.encrypt_uuid pni_credential.aci_bytes
  let pni_ciphertext :=
    group_secret_params.encrypt_uuid pni_credential.pni_bytes
  let profile_key_ciphertext :=
    group_secret_params.encrypt_profile_key_bytes
      pni_credential.profile_key_bytes pni_credential.aci_bytes
  let (proof, _) := PniPresProof.new PRESENTATION_VERSION_1 uid_enc_key_pair
    profile_key_enc_key_pair credentials_public_key pni_credential.credential
    aci_ciphertext.ciphertext pni_ciphertext.ciphertext
    profile_key_ciphertext.ciphertext pni_credential.aci_bytes
    pni_credential.pni_bytes pni_credential.profile_key_bytes sho
  { reserved := PRESENTATION_VERSION_1, proof := proof,
    aci_enc_ciphertext := aci_ciphertext.ciphertext,
    pni_enc_ciphertext := pni_ciphertext.ciphertext,
    profile_key_enc_ciphertext := profile_key_ciphertext.ciphertext }

/-- `ServerPublicParams::create_pni_credential_presentation_v2(randomness,
group_secret_params, pni_credential)` (server_params.rs:996). -/
def ServerPublicParams.create_pni_credential_presentation_v2
    (p : ServerPublicParams) (randomness : RandomnessBytes)
    (group_secret_params : GroupSecretParams)
    (pni_credential : PniCredential) : PniCredentialPresentationV2 :=
  let sho := Sho.new lblCreatePniPresV2 randomness
  let uid_enc_key_pair := group_secret_params.uid_enc_key_pair
  let profile_key_enc_key_pair := group_secret_params.profile_key_enc_key_pair
  let credentials_public_key := p.pni_credentials_public_key
  let aci_ciphertext :=
    group_secret_params.encrypt_uuid pni_credential.aci_bytes
  let pni_ciphertext :=
    group_secret_params.encrypt_uuid pni_credential.pni_bytes
  let profile_key_ciphertext :=
    group_secret_params.encrypt_profile_key_bytes
      pni_credential.profile_key_bytes pni_credential.aci_bytes
  let (proof, _) := PniPresProof.new PRESENTATION_VERSION_2 uid_enc_key_pair
    profile_key_enc_key_pair credentials_public_key pni_credential.credential
    aci_ciphertext.ciphertext pni_ciphertext.ciphertext
    profile_key_ciphertext.ciphertext pni_credential.aci_bytes
    pni_credential.pni_bytes pni_credential.profile_key_bytes sho
  { version := PRESENTATION_VERSION_2, proof := proof,
    aci_enc_ciphertext := aci_ciphertext.ciphertext,
    pni_enc_ciphertext := pni_ciphertext.ciphertext,
    profile_key_enc_ciphertext := profile_key_ciphertext.ciphertext }

/-- `ServerPublicParams::create_pni_credential_presentation(randomness,
group_secret_params, pni_credential)` (server_params.rs:939): the
version-unqualified wrapper, which builds a V2 presentation and wraps it in
the `V2` enum variant. -/
def ServerPublicParams.create_pni_credential_presentation
    (p : ServerPublicParams) (randomness : RandomnessBytes)
    (group_secret_params : GroupSecretParams)
    (pni_credential : PniCredential) : AnyPniCredentialPresentation :=
  let presentation_v2 := p.create_pni_credential_presentation_v2 randomness
    group_secret_params pni_credential
  AnyPniCredentialPresentation.V2 presentation_v2

/-- `ServerPublicParams::create_receipt_credential_request_context(
randomness, receipt_serial_bytes)` (server_params.rs:1039): note the source
builds no request proof for receipts. -/
def ServerPublicParams.create_receipt_credential_request_context
    (p : ServerPublicParams) (randomness : RandomnessBytes)
    (receipt_serial_bytes : ReceiptSerialBytes) :
    ReceiptCredentialRequestContext :=
  let sho := Sho.new lblCreateReceiptReqCtx randomness
  let (key_pair, sho1) := KeyPair.generate sho
  let (ciphertext_with_secret_nonce, _) :=
    key_pair.encrypt (Val.natV receipt_serial_bytes) sho1
  { reserved := 0, receipt_serial_bytes := receipt_serial_bytes,
    key_pair := key_pair,
    ciphertext_with_secret_nonce := ciphertext_with_secret_nonce }

/-- `ServerPublicParams::receive_receipt_credential(context, response)`
(server_params.rs:1060): the issuance proof is verified against the receipt
struct first, only then is the blinded credential unblinded. -/
def ServerPublicParams.receive_receipt_credential (p : ServerPublicParams)
    (context : ReceiptCredentialRequestContext)
    (response : ReceiptCredentialResponse) :
    Except ZkGroupVerificationFailure ReceiptCredential :=
  let receipt_struct := ReceiptStruct.new context.receipt_serial_bytes
    response.receipt_expiration_time response.receipt_level
  match response.proof.verify p.receipt_credentials_public_key
      context.key_pair.get_public_key
      context.ciphertext_with_secret_nonce.get_ciphertext
      response.blinded_credential receipt_struct with
  | Except.error e => Except.error e
  | Except.ok _ =>
    let credential :=
      context.key_pair.decrypt_blinded response.blinded_credential
    Except.ok
      { reserved := 0, credential := credential,
        receipt_expiration_time := response.receipt_expiration_time,
        receipt_level := response.receipt_level,
        receipt_serial_bytes := context.receipt_serial_bytes }

/-- `ServerPublicParams::create_receipt_credential_presentation(randomness,
receipt_credential)` (server_params.rs:1089). -/
def ServerPublicParams.create_receipt_credential_presentation
    (p : ServerPublicParams) (randomness : RandomnessBytes)
    (receipt_credential : ReceiptCredential) : ReceiptCredentialPresentation :=
  let sho := Sho.new lblCreateReceiptPres randomness
  let (proof, _) := ReceiptCredentialPresentationProof.new
    p.receipt_credentials_public_key receipt_credential.credential sho
  { reserved := 0, proof := proof,
    receipt_expiration_time := receipt_credential.receipt_expiration_time,
    receipt_level := receipt_credential.receipt_level,
    receipt_serial_bytes := receipt_credential.receipt_serial_bytes }

/-- C4: for every group public params and every versioned presentation, the
version-dispatching verifiers (`verify_auth_credential_presentation`,
`verify_profile_key_credential_presentation`,
`verify_pni_credential_presentation`) are extensionally equal to the
matching versioned entry points on each variant of the closed version enum:
`V1` dispatches to the `_v1` verifier and `V2` to the `_v2` verifier, with
no default-accept branch. -/
theorem verify_presentation_dispatch_eq_versioned
    (s : ServerSecretParams) (g : GroupPublicParams)
    (pa1 : AuthCredentialPresentationV1) (pa2 : AuthCredentialPresentationV2)
    (pk1 : ProfileKeyCredentialPresentationV1)
    (pk2 : ProfileKeyCredentialPresentationV2)
    (pn1 : PniCredentialPresentationV1) (pn2 : PniCredentialPresentationV2) :
    s.verify_auth_credential_presentation g
        (AnyAuthCredentialPresentation.V1 pa1) =
      s.verify_auth_credential_presentation_v1 g pa1 ∧
    s.verify_auth_credential_presentation g
        (AnyAuthCredentialPresentation.V2 pa2) =
      s.verify_auth_credential_presentation_v2 g pa2 ∧
    s.verify_profile_key_credential_presentation g
        (AnyProfileKeyCredentialPresentation.V1 pk1) =
      s.verify_profile_key_credential_presentation_v1 g pk1 ∧
    s.verify_profile_key_credential_presentation g
        (AnyProfileKeyCredentialPresentation.V2 pk2) =
      s.verify_profile_key_credential_presentation_v2 g pk2 ∧
    s.verify_pni_credential_presentation g
        (AnyPniCredentialPresentation.V1 pn1) =
      s.verify_pni_credential_presentation_v1 g pn1 ∧
    s.verify_pni_credential_presentation g
        (AnyPniCredentialPresentation.V2 pn2) =
      s.verify_pni_credential_presentation_v2 g pn2 :=
  ⟨rfl, rfl, rfl, rfl, rfl, rfl⟩

/-- C5: the version-unqualified wrappers `create_auth_credential_presentation`,
`create_profile_key_credential_presentation` and
`create_pni_credential_presentation` each return exactly the `V2` enum
variant wrapping the output of the corresponding `_v2` function on the same
arguments; `create_profile_key_credential_v3_presentation` returns its
dedicated presentation type directly, with no version-enum wrapper. -/
theorem create_presentation_wrappers_pick_v2
    (p : ServerPublicParams) (randomness : RandomnessBytes)
    (gs : GroupSecretParams) (ac : AuthCredential)
    (pc : ProfileKeyCredential) (nc : PniCredential)
    (vc : ProfileKeyCredentialV3) :
    p.create_auth_credential_presentation randomness gs ac =
      AnyAuthCredentialPresentation.V2
        (p.create_auth_credential_presentation_v2 randomness gs ac) ∧
    p.create_profile_key_credential_presentation randomness gs pc =
      AnyProfileKeyCredentialPresentation.V2
        (p.create_profile_key_credential_presentation_v2 randomness gs pc) ∧
    p.create_pni_credential_presentation randomness gs nc =
      AnyPniCredentialPresentation.V2
        (p.create_pni_credential_presentation_v2 randomness gs nc) ∧
    (p.create_profile_key_credential_v3_presentation randomness gs vc).version =
      PROFILE_KEY_CREDENTIAL_VERSION_3 :=
  ⟨rfl, rfl, rfl, rfl⟩

/-- C6: `create_pni_credential_request_context(randomness, aci_bytes,
pni_bytes, profile_key)` returns a context whose key pair,
ciphertext-with-secret-nonce, proof, aci bytes and profile-key bytes are
exactly those of
`create_profile_key_credential_request_context(randomness, aci_bytes,
profile_key)`, with the pni bytes added as the only new field. -/
theorem pni_request_context_reuses_profile_key_request_context
    (p : ServerPublicParams) (randomness : RandomnessBytes)
    (aci_bytes pni_bytes : UidBytes) (profile_key : ProfileKey) :
    (p.create_pni_credential_request_context randomness aci_bytes pni_bytes
        profile_key).key_pair =
      (p.create_profile_key_credential_request_context randomness aci_bytes
        profile_key).key_pair ∧
    (p.create_pni_credential_request_context randomness aci_bytes pni_bytes
        profile_key).ciphertext_with_secret_nonce =
      (p.create_profile_key_credential_request_context randomness aci_bytes
        profile_key).ciphertext_with_secret_nonce ∧
    (p.create_pni_credential_request_context randomness aci_bytes pni_bytes
        profile_key).proof =
      (p.create_profile_key_credential_request_context randomness aci_bytes
        profile_key).proof ∧
    (p.create_pni_credential_request_context randomness aci_bytes pni_bytes
        profile_key).aci_bytes = aci_bytes ∧
    (p.create_pni_credential_request_context randomness aci_bytes pni_bytes
        profile_key).profile_key_bytes =
      (p.create_profile_key_credential_request_context randomness aci_bytes
        profile_key).profile_key_bytes ∧
    (p.create_pni_credential_request_context randomness aci_bytes pni_bytes
        profile_key).pni_bytes = pni_bytes :=
  ⟨rfl, rfl, rfl, rfl, rfl, rfl⟩

/-- C10: in every PNI credential presentation, V1 and V2 alike, the
profile-key ciphertext is produced by
`encrypt_profile_key_bytes(profile_key_bytes, aci_bytes)` — bound to the
ACI, never to the PNI — and the PNI bytes appear only in their own separate
uid ciphertext produced by `encrypt_uuid(pni_bytes)`. -/
theorem pni_presentation_profile_key_bound_to_aci
    (p : ServerPublicParams) (randomness : RandomnessBytes)
    (gs : GroupSecretParams) (nc : PniCredential) :
    (p.create_pni_credential_presentation_v1 randomness gs nc).profile_key_enc_ciphertext =
      (gs.encrypt_profile_key_bytes nc.profile_key_bytes nc.aci_bytes).ciphertext ∧
    (p.create_pni_credential_presentation_v1 randomness gs nc).pni_enc_ciphertext =
      (gs.encrypt_uuid nc.pni_bytes).ciphertext ∧
    (p.create_pni_credential_presentation_v1 randomness gs nc).aci_enc_ciphertext =
      (gs.encrypt_uuid nc.aci_bytes).ciphertext ∧
    (p.create_pni_credential_presentation_v2 randomness gs nc).profile_key_enc_ciphertext =
      (gs.encrypt_profile_key_bytes nc.profile_key_bytes nc.aci_bytes).ciphertext ∧
    (p.create_pni_credential_presentation_v2 randomness gs nc).pni_enc_ciphertext =
      (gs.encrypt_uuid nc.pni_bytes).ciphertext ∧
    (p.create_pni_credential_presentation_v2 randomness gs nc).aci_enc_ciphertext =
      (gs.encrypt_uuid nc.aci_bytes).ciphertext :=
  ⟨rfl, rfl, rfl, rfl, rfl, rfl⟩

/-- C8: every construction operation — `ServerSecretParams::generate`,
`sign`, the four `create_*_request_context` operations and every
`create_*_presentation` variant — is total: for every input it returns a
constructed value (their embedded types, like the source return types, are
not `Result`, and the single construction path preserves the caller's
attribute bytes where the context records them). -/
theorem construction_operations_total
    (p : ServerPublicParams) (r : RandomnessBytes) (m : Nat)
    (uid aci pni : UidBytes) (pk : ProfileKey) (serial : ReceiptSerialBytes)
    (gs : GroupSecretParams) (ac : AuthCredential) (pc : ProfileKeyCredential)
    (vc : ProfileKeyCredentialV3) (nc : PniCredential) (rc : ReceiptCredential) :
    (∃ s, ServerSecretParams.generate r = s) ∧
    (∃ sig, (ServerSecretParams.generate r).sign r m = sig) ∧
    (∃ c, p.create_profile_key_credential_request_context r uid pk = c ∧
      c.uid_bytes = uid) ∧
    (∃ c, p.create_profile_key_credential_v3_request_context r uid pk = c ∧
      c.uid_bytes = uid) ∧
    (∃ c, p.create_pni_credential_request_context r aci pni pk = c ∧
      c.aci_bytes = aci ∧ c.pni_bytes = pni) ∧
    (∃ c, p.create_receipt_credential_request_context r serial = c ∧
      c.receipt_serial_bytes = serial) ∧
    (∃ q, p.create_auth_credential_presentation r gs ac = q) ∧
    (∃ q, p.create_auth_credential_presentation_v1 r gs ac = q) ∧
    (∃ q, p.create_auth_credential_presentation_v2 r gs ac = q) ∧
    (∃ q, p.create_profile_key_credential_presentation r gs pc = q) ∧
    (∃ q, p.create_profile_key_credential_presentation_v1 r gs pc = q) ∧
    (∃ q, p.create_profile_key_credential_presentation_v2 r gs pc = q) ∧
    (∃ q, p.create_profile_key_credential_v3_presentation r gs vc = q) ∧
    (∃ q, p.create_pni_credential_presentation r gs nc = q) ∧
    (∃ q, p.create_pni_credential_presentation_v1 r gs nc = q) ∧
    (∃ q, p.create_pni_credential_presentation_v2 r gs nc = q) ∧
    (∃ q, p.create_receipt_credential_presentation r rc = q) :=
  ⟨⟨_, rfl⟩, ⟨_, rfl⟩, ⟨_, rfl, rfl⟩, ⟨_, rfl, rfl⟩, ⟨_, rfl, rfl, rfl⟩,
    ⟨_, rfl, rfl⟩, ⟨_, rfl⟩, ⟨_, rfl⟩, ⟨_, rfl⟩, ⟨_, rfl⟩, ⟨_, rfl⟩,
    ⟨_, rfl⟩, ⟨_, rfl⟩, ⟨_, rfl⟩, ⟨_, rfl⟩, ⟨_, rfl⟩, ⟨_, rfl⟩⟩

/-- C9: every operation of `ServerSecretParams` and `ServerPublicParams` is
a deterministic function of its explicit arguments: two calls to the same
operation — `generate`, `get_public_params`, `sign`, each of the five
`issue_*` operations, each of the four `create_*_request_context`
operations, and every `create_*_presentation*` variant — with identical
randomness bytes and identical other inputs produce identical outputs;
there is no hidden randomness source or global state (all randomness flows
through the explicit `Sho` stream seeded by the randomness argument). -/
theorem operations_deterministic
    (s1 s2 : ServerSecretParams) (p1 p2 : ServerPublicParams)
    (r1 r2 : RandomnessBytes) (m1 m2 : Nat) (u1 u2 pni1 pni2 : UidBytes)
    (t1 t2 : RedemptionTime) (x1 x2 : ReceiptExpirationTime)
    (l1 l2 : ReceiptLevel) (sr1 sr2 : ReceiptSerialBytes)
    (pk1 pk2 : ProfileKey)
    (req1 req2 : ProfileKeyCredentialRequest)
    (rr1 rr2 : ReceiptCredentialRequest)
    (cm1 cm2 : ProfileKeyCommitment) (gs1 gs2 : GroupSecretParams)
    (pc1 pc2 : ProfileKeyCredential) (ac1 ac2 : AuthCredential)
    (vc1 vc2 : ProfileKeyCredentialV3) (nc1 nc2 : PniCredential)
    (rc1 rc2 : ReceiptCredential)
    (hs : s1 = s2) (hp : p1 = p2) (hr : r1 = r2) (hm : m1 = m2)
    (hu : u1 = u2) (hpni : pni1 = pni2) (ht : t1 = t2) (hx : x1 = x2)
    (hl : l1 = l2) (hsr : sr1 = sr2) (hpk : pk1 = pk2) (hreq : req1 = req2)
    (hrr : rr1 = rr2) (hcm : cm1 = cm2) (hgs : gs1 = gs2) (hpc : pc1 = pc2)
    (hac : ac1 = ac2) (hvc : vc1 = vc2) (hnc : nc1 = nc2) (hrc : rc1 = rc2) :
    ServerSecretParams.generate r1 = ServerSecretParams.generate r2 ∧
    s1.get_public_params = s2.get_public_params ∧
    s1.sign r1 m1 = s2.sign r2 m2 ∧
    s1.issue_auth_credential r1 u1 t1 = s2.issue_auth_credential r2 u2 t2 ∧
    s1.issue_profile_key_credential r1 req1 u1 cm1 =
      s2.issue_profile_key_credential r2 req2 u2 cm2 ∧
    s1.issue_profile_key_credential_v3 r1 req1 u1 cm1 =
      s2.issue_profile_key_credential_v3 r2 req2 u2 cm2 ∧
    s1.issue_pni_credential r1 req1 u1 pni1 cm1 =
      s2.issue_pni_credential r2 req2 u2 pni2 cm2 ∧
    s1.issue_receipt_credential r1 rr1 x1 l1 =
      s2.issue_receipt_credential r2 rr2 x2 l2 ∧
    p1.create_profile_key_credential_request_context r1 u1 pk1 =
      p2.create_profile_key_credential_request_context r2 u2 pk2 ∧
    p1.create_profile_key_credential_v3_request_context r1 u1 pk1 =
      p2.create_profile_key_credential_v3_request_context r2 u2 pk2 ∧
    p1.create_pni_credential_request_context r1 u1 pni1 pk1 =
      p2.create_pni_credential_request_context r2 u2 pni2 pk2 ∧
    p1.create_receipt_credential_request_context r1 sr1 =
      p2.create_receipt_credential_request_context r2 sr2 ∧
    p1.create_auth_credential_presentation r1 gs1 ac1 =
      p2.create_auth_credential_presentation r2 gs2 ac2 ∧
    p1.create_auth_credential_presentation_v1 r1 gs1 ac1 =
      p2.create_auth_credential_presentation_v1 r2 gs2 ac2 ∧
    p1.create_auth_credential_presentation_v2 r1 gs1 ac1 =
      p2.create_auth_credential_presentation_v2 r2 gs2 ac2 ∧
    p1.create_profile_key_credential_presentation r1 gs1 pc1 =
      p2.create_profile_key_credential_presentation r2 gs2 pc2 ∧
    p1.create_profile_key_credential_presentation_v1 r1 gs1 pc1 =
      p2.create_profile_key_credential_presentation_v1 r2 gs2 pc2 ∧
    p1.create_profile_key_credential_presentation_v2 r1 gs1 pc1 =
      p2.create_profile_key_credential_presentation_v2 r2 gs2 pc2 ∧
    p1.create_profile_key_credential_v3_presentation r1 gs1 vc1 =
      p2.create_profile_key_credential_v3_presentation r2 gs2 vc2 ∧
    p1.create_pni_credential_presentation r1 gs1 nc1 =
      p2.create_pni_credential_presentation r2 gs2 nc2 ∧
    p1.create_pni_credential_presentation_v1 r1 gs1 nc1 =
      p2.create_pni_credential_presentation_v1 r2 gs2 nc2 ∧
    p1.create_pni_credential_presentation_v2 r1 gs1 nc1 =
      p2.create_pni_credential_presentation_v2 r2 gs2 nc2 ∧
    p1.create_receipt_credential_presentation r1 rc1 =
      p2.create_receipt_credential_presentation r2 rc2 := by
  subst hs hp hr hm hu hpni ht hx hl hsr hpk hreq hrr hcm hgs hpc hac hvc
    hnc hrc
  exact ⟨rfl, rfl, rfl, rfl, rfl, rfl, rfl, rfl, rfl, rfl, rfl, rfl, rfl,
    rfl, rfl, rfl, rfl, rfl, rfl, rfl, rfl, rfl, rfl⟩

/-- Concrete secret params used by witness instantiations. -/
def sspW : ServerSecretParams := ServerSecretParams.generate 0

/-- Concrete public params used by witness instantiations. -/
def sppW : ServerPublicParams := sspW.get_public_params

/-- Concrete group secret params used by witness instantiations. -/
def gspW : GroupSecretParams := GroupSecretParams.generate 4

/-- Concrete profile-key request used by witness instantiations. -/
def reqW : ProfileKeyCredentialRequest :=
  (sppW.create_profile_key_credential_request_context 1 2 ⟨3⟩).get_request

/-- Concrete commitment used by witness instantiations. -/
def cmW : ProfileKeyCommitment := ⟨ProfileKey.get_commitment ⟨3⟩ 2⟩

/-- Concrete profile-key credential used by witness instantiations. -/
def pcW : ProfileKeyCredential := ⟨0, Val.natV 1, 2, 3⟩

/-- Concrete receipt request used by witness instantiations. -/
def rrW : ReceiptCredentialRequest := ⟨0, Val.natV 11, Val.natV 12⟩

/-- Concrete auth credential used by witness instantiations. -/
def acW : AuthCredential := ⟨0, Val.natV 1, Val.uidStructV 2, 3⟩

/-- Concrete V3 profile-key credential used by witness instantiations. -/
def vcW : ProfileKeyCredentialV3 := ⟨0, Val.natV 1, 2, 3⟩

/-- Concrete PNI credential used by witness instantiations. -/
def ncW : PniCredential := ⟨0, Val.natV 1, 2, 3, 4⟩

/-- Concrete receipt credential used by witness instantiations. -/
def rcW : ReceiptCredential := ⟨0, Val.natV 1, 2, 3, 4⟩

/-- Witness for C9: the determinism theorem instantiated at concrete equal
inputs for every covered operation. -/
theorem operations_deterministic_witness :
    ServerSecretParams.generate 1 = ServerSecretParams.generate 1 ∧
    sspW.get_public_params = sspW.get_public_params ∧
    sspW.sign 1 5 = sspW.sign 1 5 ∧
    sspW.issue_auth_credential 1 2 6 = sspW.issue_auth_credential 1 2 6 ∧
    sspW.issue_profile_key_credential 1 reqW 2 cmW =
      sspW.issue_profile_key_credential 1 reqW 2 cmW ∧
    sspW.issue_profile_key_credential_v3 1 reqW 2 cmW =
      sspW.issue_profile_key_credential_v3 1 reqW 2 cmW ∧
    sspW.issue_pni_credential 1 reqW 2 7 cmW =
      sspW.issue_pni_credential 1 reqW 2 7 cmW ∧
    sspW.issue_receipt_credential 1 rrW 8 9 =
      sspW.issue_receipt_credential 1 rrW 8 9 ∧
    sppW.create_profile_key_credential_request_context 1 2 ⟨3⟩ =
      sppW.create_profile_key_credential_request_context 1 2 ⟨3⟩ ∧
    sppW.create_profile_key_credential_v3_request_context 1 2 ⟨3⟩ =
      sppW.create_profile_key_credential_v3_request_context 1 2 ⟨3⟩ ∧
    sppW.create_pni_credential_request_context 1 2 7 ⟨3⟩ =
      sppW.create_pni_credential_request_context 1 2 7 ⟨3⟩ ∧
    sppW.create_receipt_credential_request_context 1 10 =
      sppW.create_receipt_credential_request_context 1 10 ∧
    sppW.create_auth_credential_presentation 1 gspW acW =
      sppW.create_auth_credential_presentation 1 gspW acW ∧
    sppW.create_auth_credential_presentation_v1 1 gspW acW =
      sppW.create_auth_credential_presentation_v1 1 gspW acW ∧
    sppW.create_auth_credential_presentation_v2 1 gspW acW =
      sppW.create_auth_credential_presentation_v2 1 gspW acW ∧
    sppW.create_profile_key_credential_presentation 1 gspW pcW =
      sppW.create_profile_key_credential_presentation 1 gspW pcW ∧
    sppW.create_profile_key_credential_presentation_v1 1 gspW pcW =
      sppW.create_profile_key_credential_presentation_v1 1 gspW pcW ∧
    sppW.create_profile_key_credential_presentation_v2 1 gspW pcW =
      sppW.create_profile_key_credential_presentation_v2 1 gspW pcW ∧
    sppW.create_profile_key_credential_v3_presentation 1 gspW vcW =
      sppW.create_profile_key_credential_v3_presentation 1 gspW vcW ∧
    sppW.create_pni_credential_presentation 1 gspW ncW =
      sppW.create_pni_credential_presentation 1 gspW ncW ∧
    sppW.create_pni_credential_presentation_v1 1 gspW ncW =
      sppW.create_pni_credential_presentation_v1 1 gspW ncW ∧
    sppW.create_pni_credential_presentation_v2 1 gspW ncW =
      sppW.create_pni_credential_presentation_v2 1 gspW ncW ∧
    sppW.create_receipt_credential_presentation 1 rcW =
      sppW.create_receipt_credential_presentation 1 rcW :=
  operations_deterministic sspW sspW sppW sppW 1 1 5 5 2 2 7 7 6 6 8 8 9 9
    10 10 ⟨3⟩ ⟨3⟩ reqW reqW rrW rrW cmW cmW gspW gspW pcW pcW acW acW
    vcW vcW ncW ncW rcW rcW
    rfl rfl rfl rfl rfl rfl rfl rfl rfl rfl rfl rfl rfl rfl rfl rfl rfl
    rfl rfl rfl

/-- C7: every receive operation (`receive_auth_credential`,
`receive_profile_key_credential`, `receive_profile_key_credential_v3`,
`receive_pni_credential`, `receive_receipt_credential`) returns
`Err(ZkGroupVerificationFailure)` exactly when the issuance proof fails to
verify — the failure carries nothing but the opaque error — and returns
`Ok` exactly when verification succeeded, in which case the value is the
fully unblinded credential assembled from the context and response; no
partially decrypted material is ever returned on failure. -/
theorem receive_verifies_before_unblinding
    (p : ServerPublicParams) (u : UidBytes) (t : RedemptionTime)
    (ra : AuthCredentialResponse)
    (ctx : ProfileKeyCredentialRequestContext)
    (rp : ProfileKeyCredentialResponse)
    (ctx3 : ProfileKeyCredentialV3RequestContext)
    (r3 : ProfileKeyCredentialV3Response)
    (ctxn : PniCredentialRequestContext) (rn : PniCredentialResponse)
    (ctxr : ReceiptCredentialRequestContext)
    (rr : ReceiptCredentialResponse) :
    (∀ e, p.receive_auth_credential u t ra = Except.error e ↔
      ra.proof.verify p.auth_credentials_public_key ra.credential
        (UidStruct.new u) t = Except.error e) ∧
    (∀ c, p.receive_auth_credential u t ra = Except.ok c ↔
      (ra.proof.verify p.auth_credentials_public_key ra.credential
        (UidStruct.new u) t = Except.ok () ∧
       c = { reserved := 0, credential := ra.credential,
             uid := UidStruct.new u, redemption_time := t })) ∧
    (∀ e, p.receive_profile_key_credential ctx rp = Except.error e ↔
      rp.proof.verify kindProfileKey p.profile_key_credentials_public_key
        ctx.key_pair.get_public_key ctx.uid_bytes
        ctx.ciphertext_with_secret_nonce.get_ciphertext
        rp.blinded_credential = Except.error e) ∧
    (∀ c, p.receive_profile_key_credential ctx rp = Except.ok c ↔
      (rp.proof.verify kindProfileKey p.profile_key_credentials_public_key
        ctx.key_pair.get_public_key ctx.uid_bytes
        ctx.ciphertext_with_secret_nonce.get_ciphertext
        rp.blinded_credential = Except.ok () ∧
       c = { reserved := 0,
             credential := ctx.key_pair.decrypt_blinded rp.blinded_credential,
             uid_bytes := ctx.uid_bytes,
             profile_key_bytes := ctx.profile_key_bytes })) ∧
    (∀ e, p.receive_profile_key_credential_v3 ctx3 r3 = Except.error e ↔
      r3.proof.verify kindProfileKeyV3 p.profile_key_credentials_v3_public_key
        ctx3.key_pair.get_public_key ctx3.uid_bytes
        ctx3.ciphertext_with_secret_nonce.get_ciphertext
        r3.blinded_credential = Except.error e) ∧
    (∀ c, p.receive_profile_key_credential_v3 ctx3 r3 = Except.ok c ↔
      (r3.proof.verify kindProfileKeyV3 p.profile_key_credentials_v3_public_key
        ctx3.key_pair.get_public_key ctx3.uid_bytes
        ctx3.ciphertext_with_secret_nonce.get_ciphertext
        r3.blinded_credential = Except.ok () ∧
       c = { reserved := 0,
             credential := ctx3.key_pair.decrypt_blinded r3.blinded_credential,
             uid_bytes := ctx3.uid_bytes,
             profile_key_bytes := ctx3.profile_key_bytes })) ∧
    (∀ e, p.receive_pni_credential ctxn rn = Except.error e ↔
      rn.proof.verify p.pni_credentials_public_key
        ctxn.key_pair.get_public_key ctxn.aci_bytes ctxn.pni_bytes
        ctxn.ciphertext_with_secret_nonce.get_ciphertext
        rn.blinded_credential = Except.error e) ∧
    (∀ c, p.receive_pni_credential ctxn rn = Except.ok c ↔
      (rn.proof.verify p.pni_credentials_public_key
        ctxn.key_pair.get_public_key ctxn.aci_bytes ctxn.pni_bytes
        ctxn.ciphertext_with_secret_nonce.get_ciphertext
        rn.blinded_credential = Except.ok () ∧
       c = { reserved := 0,
             credential := ctxn.key_pair.decrypt_blinded rn.blinded_credential,
             aci_bytes := ctxn.aci_bytes, pni_bytes := ctxn.pni_bytes,
             profile_key_bytes := ctxn.profile_key_bytes })) ∧
    (∀ e, p.receive_receipt_credential ctxr rr = Except.error e ↔
      rr.proof.verify p.receipt_credentials_public_key
        ctxr.key_pair.get_public_key
        ctxr.ciphertext_with_secret_nonce.get_ciphertext
        rr.blinded_credential
        (ReceiptStruct.new ctxr.receipt_serial_bytes
          rr.receipt_expiration_time rr.receipt_level) = Except.error e) ∧
    (∀ c, p.receive_receipt_credential ctxr rr = Except.ok c ↔
      (rr.proof.verify p.receipt_credentials_public_key
        ctxr.key_pair.get_public_key
        ctxr.ciphertext_with_secret_nonce.get_ciphertext
        rr.blinded_credential
        (ReceiptStruct.new ctxr.receipt_serial_bytes
          rr.receipt_expiration_time rr.receipt_level) = Except.ok () ∧
       c = { reserved := 0,
             credential := ctxr.key_pair.decrypt_blinded rr.blinded_credential,
             receipt_expiration_time := rr.receipt_expiration_time,
             receipt_level := rr.receipt_level,
             receipt_serial_bytes := ctxr.receipt_serial_bytes })) := by
  refine ⟨?_, ?_, ?_, ?_, ?_, ?_, ?_, ?_, ?_, ?_⟩
  · intro e
    cases h : ra.proof.verify p.auth_credentials_public_key ra.credential
        (UidStruct.new u) t with
    | error e0 => simp [ServerPublicParams.receive_auth_credential, h]
    | ok v => simp [ServerPublicParams.receive_auth_credential, h]
  · intro c
    cases h : ra.proof.verify p.auth_credentials_public_key ra.credential
        (UidStruct.new u) t with
    | error e0 => simp [ServerPublicParams.receive_auth_credential, h]
    | ok v => simp [ServerPublicParams.receive_auth_credential, h, eq_comm]
  · intro e
    cases h : rp.proof.verify kindProfileKey
        p.profile_key_credentials_public_key ctx.key_pair.get_public_key
        ctx.uid_bytes ctx.ciphertext_with_secret_nonce.get_ciphertext
        rp.blinded_credential with
    | error e0 => simp [ServerPublicParams.receive_profile_key_credential, h]
    | ok v => simp [ServerPublicParams.receive_profile_key_credential, h]
  · intro c
    cases h : rp.proof.verify kindProfileKey
        p.profile_key_credentials_public_key ctx.key_pair.get_public_key
        ctx.uid_bytes ctx.ciphertext_with_secret_nonce.get_ciphertext
        rp.blinded_credential with
    | error e0 => simp [ServerPublicParams.receive_profile_key_credential, h]
    | ok v =>
        simp [ServerPublicParams.receive_profile_key_credential, h, eq_comm]
  · intro e
    cases h : r3.proof.verify kindProfileKeyV3
        p.profile_key_credentials_v3_public_key ctx3.key_pair.get_public_key
        ctx3.uid_bytes ctx3.ciphertext_with_secret_nonce.get_ciphertext
        r3.blinded_credential with
    | error e0 =>
        simp [ServerPublicParams.receive_profile_key_credential_v3, h]
    | ok v => simp [ServerPublicParams.receive_profile_key_credential_v3, h]
  · intro c
    cases h : r3.proof.verify kindProfileKeyV3
        p.profile_key_credentials_v3_public_key ctx3.key_pair.get_public_key
        ctx3.uid_bytes ctx3.ciphertext_with_secret_nonce.get_ciphertext
        r3.blinded_credential with
    | error e0 =>
        simp [ServerPublicParams.receive_profile_key_credential_v3, h]
    | ok v =>
        simp [ServerPublicParams.receive_profile_key_credential_v3, h, eq_comm]
  · intro e
    cases h : rn.proof.verify p.pni_credentials_public_key
        ctxn.key_pair.get_public_key ctxn.aci_bytes ctxn.pni_bytes
        ctxn.ciphertext_with_secret_nonce.get_ciphertext
        rn.blinded_credential with
    | error e0 => simp [ServerPublicParams.receive_pni_credential, h]
    | ok v => simp [ServerPublicParams.receive_pni_credential, h]
  · intro c
    cases h : rn.proof.verify p.pni_credentials_public_key
        ctxn.key_pair.get_public_key ctxn.aci_bytes ctxn.pni_bytes
        ctxn.ciphertext_with_secret_nonce.get_ciphertext
        rn.blinded_credential with
    | error e0 => simp [ServerPublicParams.receive_pni_credential, h]
    | ok v => simp [ServerPublicParams.receive_pni_credential, h, eq_comm]
  · intro e
    cases h : rr.proof.verify p.receipt_credentials_public_key
        ctxr.key_pair.get_public_key
        ctxr.ciphertext_with_secret_nonce.get_ciphertext
        rr.blinded_credential
        (ReceiptStruct.new ctxr.receipt_serial_bytes
          rr.receipt_expiration_time rr.receipt_level) with
    | error e0 => simp [ServerPublicParams.receive_receipt_credential, h]
    | ok v => simp [ServerPublicParams.receive_receipt_credential, h]
  · intro c
    cases h : rr.proof.verify p.receipt_credentials_public_key
        ctxr.key_pair.get_public_key
        ctxr.ciphertext_with_secret_nonce.get_ciphertext
        rr.blinded_credential
        (ReceiptStruct.new ctxr.receipt_serial_bytes
          rr.receipt_expiration_time rr.receipt_level) with
    | error e0 => simp [ServerPublicParams.receive_receipt_credential, h]
    | ok v => simp [ServerPublicParams.receive_receipt_credential, h, eq_comm]

/-- Counterexample to C2 as stated: `issue_receipt_credential` does not
return a `Result` and never verifies any request proof — receipt requests
carry no proof and no commitment is supplied (server_params.rs:463,
1039-1057).  On a garbage request (public key `natV 7`, ciphertext `natV 9`,
produced by no honest request context, so no request proof could possibly
verify for it), issuance still unconditionally returns the fully
blind-issued response embedding the unvalidated ciphertext. -/
theorem issue_receipt_credential_never_rejects :
    (ServerSecretParams.generate 0).issue_receipt_credential 1
        { reserved := 0, public_key := Val.natV 7, ciphertext := Val.natV 9 }
        5 6 =
      { reserved := 0, receipt_expiration_time := 5, receipt_level := 6,
        blinded_credential := Val.blindCtV kindReceipt (Val.natV 7)
          (Val.shoOut lblIssueReceipt 1 0)
          (Val.credV kindReceipt (Val.shoOut lblGenerate 0 3)
            (Val.pairV (Val.natV 9)
              (Val.pairV (Val.natV 5) (Val.natV 6)))),
        proof := { issuer_public := Val.pubOf (Val.shoOut lblGenerate 0 3),
                   holder_public := Val.natV 7, ciphertext := Val.natV 9,
                   blinded := Val.blindCtV kindReceipt (Val.natV 7)
                     (Val.shoOut lblIssueReceipt 1 0)
                     (Val.credV kindReceipt (Val.shoOut lblGenerate 0 3)
                       (Val.pairV (Val.natV 9)
                         (Val.pairV (Val.natV 5) (Val.natV 6)))),
                   receipt_expiration_time := 5, receipt_level := 6,
                   fsNonce := Val.shoOut lblIssueReceipt 1 1 } } := rfl

/-- C2 (amended): the issuer-side issue operations whose requests carry a
proof — `issue_profile_key_credential`, `issue_profile_key_credential_v3`
and `issue_pni_credential` — return a `Result` and first verify the
request's proof against the supplied commitment: they return
`Err(ZkGroupVerificationFailure)` exactly when that proof fails to verify,
and blind-issue exactly when it succeeds.  `issue_receipt_credential` takes
a proof-free request and always returns a response with no verification. -/
theorem issue_operations_verify_request_proof_first
    (s : ServerSecretParams) (r : RandomnessBytes)
    (req : ProfileKeyCredentialRequest) (uid pni : UidBytes)
    (cm : ProfileKeyCommitment) (rreq : ReceiptCredentialRequest)
    (t : ReceiptExpirationTime) (l : ReceiptLevel) :
    (∀ e, s.issue_profile_key_credential r req uid cm = Except.error e ↔
      req.proof.verify req.public_key req.ciphertext cm.commitment =
        Except.error e) ∧
    ((∃ resp, s.issue_profile_key_credential r req uid cm = Except.ok resp) ↔
      req.proof.verify req.public_key req.ciphertext cm.commitment =
        Except.ok ()) ∧
    (∀ e, s.issue_profile_key_credential_v3 r req uid cm = Except.error e ↔
      req.proof.verify req.public_key req.ciphertext cm.commitment =
        Except.error e) ∧
    ((∃ resp, s.issue_profile_key_credential_v3 r req uid cm = Except.ok resp) ↔
      req.proof.verify req.public_key req.ciphertext cm.commitment =
        Except.ok ()) ∧
    (∀ e, s.issue_pni_credential r req uid pni cm = Except.error e ↔
      req.proof.verify req.public_key req.ciphertext cm.commitment =
        Except.error e) ∧
    ((∃ resp, s.issue_pni_credential r req uid pni cm = Except.ok resp) ↔
      req.proof.verify req.public_key req.ciphertext cm.commitment =
        Except.ok ()) ∧
    (∃ resp, s.issue_receipt_credential r rreq t l = resp) := by
  refine ⟨?_, ?_, ?_, ?_, ?_, ?_, ⟨_, rfl⟩⟩
  · intro e
    cases h : req.proof.verify req.public_key req.ciphertext cm.commitment with
    | error e0 => simp [ServerSecretParams.issue_profile_key_credential, h]
    | ok v => simp [ServerSecretParams.issue_profile_key_credential, h]
  · cases h : req.proof.verify req.public_key req.ciphertext cm.commitment with
    | error e0 => simp [ServerSecretParams.issue_profile_key_credential, h]
    | ok v => simp [ServerSecretParams.issue_profile_key_credential, h]
  · intro e
    cases h : req.proof.verify req.public_key req.ciphertext cm.commitment with
    | error e0 => simp [ServerSecretParams.issue_profile_key_credential_v3, h]
    | ok v => simp [ServerSecretParams.issue_profile_key_credential_v3, h]
  · cases h : req.proof.verify req.public_key req.ciphertext cm.commitment with
    | error e0 => simp [ServerSecretParams.issue_profile_key_credential_v3, h]
    | ok v => simp [ServerSecretParams.issue_profile_key_credential_v3, h]
  · intro e
    cases h : req.proof.verify req.public_key req.ciphertext cm.commitment with
    | error e0 => simp [ServerSecretParams.issue_pni_credential, h]
    | ok v => simp [ServerSecretParams.issue_pni_credential, h]
  · cases h : req.proof.verify req.public_key req.ciphertext cm.commitment with
    | error e0 => simp [ServerSecretParams.issue_pni_credential, h]
    | ok v => simp [ServerSecretParams.issue_pni_credential, h]

/-- C3: for every randomness and attribute inputs, the full issuance round
trip succeeds for every credential kind and preserves the attributes: the
holder builds a request context, the issuer verifies the request against
the matching commitment and blind-issues, and the holder's receive
operation verifies the issuance proof and unblinds into a credential over
exactly the original attributes (uid and profile-key bytes for profile-key
and V3, ACI/PNI/profile-key bytes for PNI, serial/expiration/level for
receipts, uid/redemption-time for auth). -/
theorem issuance_round_trip_preserves_attributes
    (ssp : ServerSecretParams) (r1 r2 : RandomnessBytes) (uid pni : UidBytes)
    (pk : ProfileKey) (serial : ReceiptSerialBytes)
    (t : ReceiptExpirationTime) (l : ReceiptLevel) (rt : RedemptionTime) :
    (ssp.issue_profile_key_credential r2
        ((ssp.get_public_params.create_profile_key_credential_request_context
          r1 uid pk).get_request) uid ⟨pk.get_commitment uid⟩).bind
      (fun resp => ssp.get_public_params.receive_profile_key_credential
        (ssp.get_public_params.create_profile_key_credential_request_context
          r1 uid pk) resp) =
      Except.ok
        { reserved := 0,
          credential := mkCred kindProfileKey
            ssp.profile_key_credentials_key_pair
            (Val.pairV (UidStruct.new uid)
              (Val.profileKeyStructV pk.bytes uid)),
          uid_bytes := uid, profile_key_bytes := pk.bytes } ∧
    (ssp.issue_profile_key_credential_v3 r2
        ((ssp.get_public_params.create_profile_key_credential_v3_request_context
          r1 uid pk).get_request) uid ⟨pk.get_commitment uid⟩).bind
      (fun resp => ssp.get_public_params.receive_profile_key_credential_v3
        (ssp.get_public_params.create_profile_key_credential_v3_request_context
          r1 uid pk) resp) =
      Except.ok
        { reserved := 0,
          credential := mkCred kindProfileKeyV3
            ssp.profile_key_credentials_v3_key_pair
            (Val.pairV (UidStruct.new uid)
              (Val.profileKeyStructV pk.bytes uid)),
          uid_bytes := uid, profile_key_bytes := pk.bytes } ∧
    (ssp.issue_pni_credential r2
        ((ssp.get_public_params.create_pni_credential_request_context
          r1 uid pni pk).get_request) uid pni ⟨pk.get_commitment uid⟩).bind
      (fun resp => ssp.get_public_params.receive_pni_credential
        (ssp.get_public_params.create_pni_credential_request_context
          r1 uid pni pk) resp) =
      Except.ok
        { reserved := 0,
          credential := mkCred kindPni ssp.pni_credentials_key_pair
            (Val.pairV (UidStruct.new uid)
              (Val.pairV (UidStruct.new pni)
                (Val.profileKeyStructV pk.bytes uid))),
          aci_bytes := uid, pni_bytes := pni,
          profile_key_bytes := pk.bytes } ∧
    ssp.get_public_params.receive_receipt_credential
        (ssp.get_public_params.create_receipt_credential_request_context
          r1 serial)
        (ssp.issue_receipt_credential r2
          ((ssp.get_public_params.create_receipt_credential_request_context
            r1 serial).get_request) t l) =
      Except.ok
        { reserved := 0,
          credential := mkCred kindReceipt ssp.receipt_credentials_key_pair
            (Val.pairV (Val.natV serial)
              (Val.pairV (Val.natV t) (Val.natV l))),
          receipt_expiration_time := t, receipt_level := l,
          receipt_serial_bytes := serial } ∧
    ssp.get_public_params.receive_auth_credential uid rt
        (ssp.issue_auth_credential r2 uid rt) =
      Except.ok
        { reserved := 0,
          credential := mkCred kindAuth ssp.auth_credentials_key_pair
            (Val.pairV (UidStruct.new uid) (Val.natV rt)),
          uid := UidStruct.new uid, redemption_time := rt } := by
  refine ⟨?_, ?_, ?_, ?_, ?_⟩
  · simp [ServerSecretParams.issue_profile_key_credential,
      ServerPublicParams.receive_profile_key_credential,
      ServerPublicParams.create_profile_key_credential_request_context,
      ProfileKeyCredentialRequestContext.get_request,
      ProfileKeyCredentialRequestProof.verify,
      ProfileKeyCredentialRequestProof.new,
      PKIssuanceProof.verify, PKIssuanceProof.new,
      KeyPair.generate, KeyPair.encrypt, KeyPair.get_public_key,
      KeyPair.create_blinded_profile_key_credential, blindIssue,
      BlindedCredentialWithSecretNonce.get_blinded, KeyPair.decrypt_blinded,
      CiphertextWithSecretNonce.get_ciphertext, ctPlaintext, ctMatchesCommit,
      CommitmentWithSecretNonce.new, CommitmentWithSecretNonce.get_commitment,
      ProfileKeyStruct.new, ProfileKeyStruct.toVal, ProfileKey.get_commitment,
      ServerSecretParams.get_public_params, Sho.new, Sho.next,
      UidStruct.new, mkCred, Except.bind]
  · simp [ServerSecretParams.issue_profile_key_credential_v3,
      ServerPublicParams.receive_profile_key_credential_v3,
      ServerPublicParams.create_profile_key_credential_v3_request_context,
      ProfileKeyCredentialV3RequestContext.get_request,
      ProfileKeyCredentialRequestProof.verify,
      ProfileKeyCredentialRequestProof.new,
      PKIssuanceProof.verify, PKIssuanceProof.new,
      KeyPair.generate, KeyPair.encrypt, KeyPair.get_public_key,
      KeyPair.create_blinded_profile_key_credential_v3, blindIssue,
      BlindedCredentialWithSecretNonce.get_blinded, KeyPair.decrypt_blinded,
      CiphertextWithSecretNonce.get_ciphertext, ctPlaintext, ctMatchesCommit,
      CommitmentWithSecretNonce.new, CommitmentWithSecretNonce.get_commitment,
      ProfileKeyStruct.new, ProfileKeyStruct.toVal, ProfileKey.get_commitment,
      ServerSecretParams.get_public_params, Sho.new, Sho.next,
      UidStruct.new, mkCred, Except.bind]
  · simp [ServerSecretParams.issue_pni_credential,
      ServerPublicParams.receive_pni_credential,
      ServerPublicParams.create_pni_credential_request_context,
      ServerPublicParams.create_profile_key_credential_request_context,
      PniCredentialRequestContext.get_request,
      ProfileKeyCredentialRequestProof.verify,
      ProfileKeyCredentialRequestProof.new,
      PniCredentialIssuanceProof.verify, PniCredentialIssuanceProof.new,
      KeyPair.generate, KeyPair.encrypt, KeyPair.get_public_key,
      KeyPair.create_blinded_pni_credential, blindIssue,
      BlindedCredentialWithSecretNonce.get_blinded, KeyPair.decrypt_blinded,
      CiphertextWithSecretNonce.get_ciphertext, ctPlaintext, ctMatchesCommit,
      CommitmentWithSecretNonce.new, CommitmentWithSecretNonce.get_commitment,
      ProfileKeyStruct.new, ProfileKeyStruct.toVal, ProfileKey.get_commitment,
      ServerSecretParams.get_public_params, Sho.new, Sho.next,
      UidStruct.new, mkCred, Except.bind]
  · simp [ServerSecretParams.issue_receipt_credential,
      ServerPublicParams.receive_receipt_credential,
      ServerPublicParams.create_receipt_credential_request_context,
      ReceiptCredentialRequestContext.get_request,
      ReceiptCredentialIssuanceProof.verify,
      ReceiptCredentialIssuanceProof.new, ReceiptStruct.new,
      KeyPair.generate, KeyPair.encrypt, KeyPair.get_public_key,
      KeyPair.create_blinded_receipt_credential, blindIssue,
      BlindedCredentialWithSecretNonce.get_blinded, KeyPair.decrypt_blinded,
      CiphertextWithSecretNonce.get_ciphertext, ctPlaintext,
      ServerSecretParams.get_public_params, Sho.new, Sho.next, mkCred]
  · simp [ServerSecretParams.issue_auth_credential,
      ServerPublicParams.receive_auth_credential,
      AuthCredentialIssuanceProof.verify, AuthCredentialIssuanceProof.new,
      KeyPair.create_auth_credential, KeyPair.get_public_key,
      ServerSecretParams.get_public_params, Sho.new, Sho.next,
      UidStruct.new, mkCred]

/-- C1's behavior at a concrete failing input: with server params generated
from seed 0 and group params from seed 1, an honestly issued and received
ProfileKeyCredentialV3 (uid bytes 10, profile key 11) yields a presentation
via `create_profile_key_credential_v3_presentation` (randomness 4) that
FAILS `verify_profile_key_credential_v3_presentation`: issuance and receipt
succeed (the outer `Except.ok`) but verification returns the opaque
failure, because the presentation proof was constructed against
`profile_key_credentials_public_key` (server_params.rs:911) while
verification uses `profile_key_credentials_v3_key_pair`
(server_params.rs:241). -/
theorem v3_presentation_round_trip_fails_verification :
    ((ServerSecretParams.generate 0).issue_profile_key_credential_v3 3
        (((ServerSecretParams.generate 0).get_public_params.create_profile_key_credential_v3_request_context
          2 10 ⟨11⟩).get_request) 10 ⟨ProfileKey.get_commitment ⟨11⟩ 10⟩).bind
      (fun resp =>
        ((ServerSecretParams.generate 0).get_public_params.receive_profile_key_credential_v3
          ((ServerSecretParams.generate 0).get_public_params.create_profile_key_credential_v3_request_context
            2 10 ⟨11⟩) resp).map
        (fun cred =>
          (ServerSecretParams.generate 0).verify_profile_key_credential_v3_presentation
            (GroupSecretParams.generate 1).get_public_params
            ((ServerSecretParams.generate 0).get_public_params.create_profile_key_credential_v3_presentation
              4 (GroupSecretParams.generate 1) cred))) =
      Except.ok
        (Except.error ZkGroupVerificationFailure.verificationFailure) := rfl

end ZkGroup
